import Mathlib

/-!
Verification of the gesture-driven hologram application: a shallow embedding
of the hand-state selector and camera-orbit smoother (`App.tsx`), the
procedural shape library, per-particle morph engine and overlay scheduler
(`components/HologramScene.tsx`), with theorems settling the specified
properties of each component.

Conventions: JavaScript numbers are embedded as exact arithmetic — rationals
for the selector/orbit state machine (all of whose operations are rational),
reals for the scene (which uses `Math.sin`, `Math.sqrt`, ...).  `Math.random()`
is modelled as an arbitrary sample function `ℕ → ℝ` (or `ℕ → ℚ`), one fresh
index per call site.  Calls into the external `three.js` library (geometry
vertex buffers, `applyEuler`, `applyAxisAngle`) are parameters of the model.
-/

namespace Hologram

/-- Three-component vector, mirroring `{ x, y, z }` position records. -/
structure Vec3 (α : Type) where
  x : α
  y : α
  z : α
deriving Repr, DecidableEq

/-- Two-component vector, mirroring `{ x, y }` velocity records. -/
structure Vec2 (α : Type) where
  x : α
  y : α
deriving Repr, DecidableEq

/-- Per-hand snapshot, mirroring `HandState` in `types.ts`. -/
structure HandState (α : Type) where
  isActive : Bool
  isFist : Bool
  position : Vec3 α
  velocity : Vec2 α
  shapeIndex : ℕ
deriving Repr, DecidableEq

/-- Mirrors `INITIAL_HAND_STATE` in `App.tsx`. -/
def INITIAL_HAND_STATE {α : Type} [Zero α] : HandState α :=
  { isActive := false
    isFist := false
    position := ⟨0, 0, 0⟩
    velocity := ⟨0, 0⟩
    shapeIndex := 0 }

/-- Mirrors `AppState` in `types.ts` (selector/orbit level, rational model). -/
structure AppState where
  leftHand : HandState ℚ
  rightHand : HandState ℚ
  cameraOrbit : ℚ
deriving Repr, DecidableEq

/-- Mirrors the inner `updateHand` closure of `handleHandUpdate` in `App.tsx`.
`fistCount` is the shared ref `fistCount.current` before this hand is
examined; the returned counter is its value afterwards.  On an open→fist
transition the counter is incremented and the hand receives
`(fistCount.current - 1) % 65`; otherwise a present hand carries the previous
`shapeIndex` forward, and an absent hand is replaced by
`{ ...INITIAL_HAND_STATE }`. -/
def updateHand (fistCount : ℕ) (current : Option (HandState ℚ))
    (prevHand : HandState ℚ) : ℕ × HandState ℚ :=
  match current with
  | some c =>
      if c.isFist && !prevHand.isFist then
        let fc := fistCount + 1
        (fc, { c with shapeIndex := (fc - 1) % 65 })
      else
        (fistCount, { c with shapeIndex := prevHand.shapeIndex })
  | none => (fistCount, INITIAL_HAND_STATE)

/-- Mirrors `handleHandUpdate` in `App.tsx`: update both hands (left first,
right second, sharing the fist counter), then recompute `cameraOrbit` from
the x-positions of the hands that are active in the new state. -/
def handleHandUpdate (fistCount : ℕ)
    (left right : Option (HandState ℚ)) (prev : AppState) : ℕ × AppState :=
  let resL := updateHand fistCount left prev.leftHand
  let resR := updateHand resL.1 right prev.rightHand
  let newLeft := resL.2
  let newRight := resR.2
  let targetOrbit : ℚ :=
    (if newLeft.isActive then newLeft.position.x else 0) +
    (if newRight.isActive then newRight.position.x else 0)
  let activeCount : ℕ :=
    (if newLeft.isActive then 1 else 0) + (if newRight.isActive then 1 else 0)
  let cameraOrbit : ℚ :=
    if 0 < activeCount then
      prev.cameraOrbit * 0.94 + ((targetOrbit / activeCount) * 0.4) * 0.06
    else
      prev.cameraOrbit * 0.96
  (resR.1, { leftHand := newLeft, rightHand := newRight, cameraOrbit := cameraOrbit })

/-- One tracker callback delivery: the `(left, right)` pair passed to
`handleHandUpdate`, each hand possibly absent. -/
abbrev TrackerInput := Option (HandState ℚ) × Option (HandState ℚ)

/-- Folding a sequence of tracker deliveries through `handleHandUpdate`,
threading the shared fist counter and the app state. -/
def runUpdates (inputs : List TrackerInput) (st : ℕ × AppState) : ℕ × AppState :=
  inputs.foldl (fun acc lr => handleHandUpdate acc.1 lr.1 lr.2 acc.2) st

/-- The initial session state: both hands at `INITIAL_HAND_STATE`, orbit `0`,
fist counter `0`. -/
def initSession : ℕ × AppState :=
  (0, { leftHand := INITIAL_HAND_STATE, rightHand := INITIAL_HAND_STATE, cameraOrbit := 0 })

/-- Whether examining `current` against `prevHand` is an open→fist transition
(the guard `current.isFist && !prevHand.isFist` of `updateHand`, false for an
absent hand). -/
def handTrans (current : Option (HandState ℚ)) (prevHand : HandState ℚ) : Bool :=
  match current with
  | some c => c.isFist && !prevHand.isFist
  | none => false

/-- The `shapeIndex` values assigned by the selector at the successive
open→fist transitions of a run, in order (left before right within one
delivery), starting from fist counter `fc`. -/
def runAssigned : List TrackerInput → ℕ → AppState → List ℕ
  | [], _, _ => []
  | lr :: rest, fc, st =>
      let aL : List ℕ := if handTrans lr.1 st.leftHand then [(fc + 1 - 1) % 65] else []
      let fcL : ℕ := fc + (cond (handTrans lr.1 st.leftHand) 1 0)
      let aR : List ℕ := if handTrans lr.2 st.rightHand then [(fcL + 1 - 1) % 65] else []
      let fcR : ℕ := fcL + (cond (handTrans lr.2 st.rightHand) 1 0)
      aL ++ aR ++ runAssigned rest fcR (handleHandUpdate fc lr.1 lr.2 st).2

/-! ### Scene-side primitives (`components/HologramScene.tsx`)

Particle and shape buffers are `Float32Array`s of `PARTICLE_COUNT * 3`
entries, modelled as `Array ℝ`.  Reads use default `0` out of range; writes
out of range are dropped (the source never performs either on the buffers it
allocates). -/

/-- Mirrors `PARTICLE_COUNT = 4000`. -/
def PARTICLE_COUNT : ℕ := 4000

/-- Bounds-checked single write into a buffer (a `Float32Array` store). -/
def setAt (a : Array ℝ) (i : ℕ) (v : ℝ) : Array ℝ :=
  if h : i < a.size then a.set ⟨i, h⟩ v else a

/-- Write the three coordinates of particle `i`: slots `i*3`, `i*3+1`,
`i*3+2`. -/
def writeTriple (a : Array ℝ) (i : ℕ) (v : ℝ × ℝ × ℝ) : Array ℝ :=
  setAt (setAt (setAt a (i * 3) v.1) (i * 3 + 1) v.2.1) (i * 3 + 2) v.2.2

/-- A fresh zeroed `Float32Array(PARTICLE_COUNT * 3)`. -/
def zeroBuffer : Array ℝ := Array.mkArray (PARTICLE_COUNT * 3) 0

/-- A full-range generator loop `for (i = 0; i < PARTICLE_COUNT; i++)` writing
the triple `f i` at particle `i`. -/
def fillN (f : ℕ → ℝ × ℝ × ℝ) : Array ℝ :=
  (List.range PARTICLE_COUNT).foldl (fun a i => writeTriple a i (f i)) zeroBuffer

/-- A grouped generator loop (`groups` outer iterations of `per` particles
each) writing the triple `f g p` at particle `g * per + p`. -/
def fillGroups (groups per : ℕ) (f : ℕ → ℕ → ℝ × ℝ × ℝ) : Array ℝ :=
  (List.range groups).foldl
    (fun a g => (List.range per).foldl
      (fun a2 p => writeTriple a2 (g * per + p) (f g p)) a)
    zeroBuffer

theorem size_setAt (a : Array ℝ) (i : ℕ) (v : ℝ) : (setAt a i v).size = a.size := by
  unfold setAt
  split <;> simp

theorem size_writeTriple (a : Array ℝ) (i : ℕ) (v : ℝ × ℝ × ℝ) :
    (writeTriple a i v).size = a.size := by
  unfold writeTriple
  simp [size_setAt]

theorem size_foldl {β : Type} (f : Array ℝ → β → Array ℝ)
    (hf : ∀ a b, (f a b).size = a.size) :
    ∀ (l : List β) (a : Array ℝ), (l.foldl f a).size = a.size := by
  intro l
  induction l with
  | nil => intro a; rfl
  | cons x xs ih => intro a; rw [List.foldl_cons, ih, hf]

theorem size_zeroBuffer : zeroBuffer.size = 12000 := by
  simp [zeroBuffer, PARTICLE_COUNT]

@[simp] theorem size_fillN (f : ℕ → ℝ × ℝ × ℝ) : (fillN f).size = 12000 := by
  unfold fillN
  rw [size_foldl _ (fun a i => size_writeTriple a i (f i)), size_zeroBuffer]

@[simp] theorem size_fillGroups (groups per : ℕ) (f : ℕ → ℕ → ℝ × ℝ × ℝ) :
    (fillGroups groups per f).size = 12000 := by
  unfold fillGroups
  rw [size_foldl, size_zeroBuffer]
  intro a g
  exact size_foldl _ (fun a2 p => size_writeTriple a2 _ (f g p)) _ a

/-! ### The per-particle morph update rule -/

/-- One per-axis application of `position += (target - position) * factor`. -/
def lerp1 (p t s : ℝ) : ℝ := p + (t - p) * s

/-- The same rule applied to a 3-D position and target. -/
def lerpStep3 (p t : Vec3 ℝ) (s : ℝ) : Vec3 ℝ :=
  ⟨lerp1 p.x t.x s, lerp1 p.y t.y s, lerp1 p.z t.z s⟩

/-- Iterated application of `lerpStep3` toward a fixed target. -/
def lerpIter (p t : Vec3 ℝ) (s : ℝ) : ℕ → Vec3 ℝ
  | 0 => p
  | n + 1 => lerpStep3 (lerpIter p t s n) t s

/-- Euclidean distance between two 3-D points. -/
noncomputable def dist3 (a b : Vec3 ℝ) : ℝ :=
  Real.sqrt ((a.x - b.x) ^ 2 + (a.y - b.y) ^ 2 + (a.z - b.z) ^ 2)

/-- One per-particle lerp speed constant, `0.07 + Math.random() * 0.08`
(`lerpSpeeds` in `HandParticles`). -/
def lerpSpeed (u : ℝ) : ℝ := 0.07 + u * 0.08

/-- Advance every particle of `pos` one tick toward the per-particle target
`targetF i` at per-particle factor `speed i` — the body of each of the three
per-frame update loops. -/
def morphWith (targetF : ℕ → ℝ × ℝ × ℝ) (speed : ℕ → ℝ) (pos : Array ℝ) : Array ℝ :=
  (List.range PARTICLE_COUNT).foldl
    (fun a i =>
      let t := targetF i
      writeTriple a i
        (lerp1 (a.getD (i * 3) 0) t.1 (speed i),
         lerp1 (a.getD (i * 3 + 1) 0) t.2.1 (speed i),
         lerp1 (a.getD (i * 3 + 2) 0) t.2.2 (speed i)))
    pos

/-! ### The per-hand frame update (`HandParticles`'s `useFrame` body) -/

/-- Horizontal+vertical (x, y only) distance between the two hands' tracked
positions, as computed in the ambient-cloud branch. -/
noncomputable def interHandDist (hand otherHand : HandState ℝ) : ℝ :=
  Real.sqrt ((hand.position.x - otherHand.position.x) ^ 2 +
             (hand.position.y - otherHand.position.y) ^ 2)

/-- The ambient-cloud spread factor:
`otherHand.isActive && !otherHand.isFist ? 1.0 + Math.min(dist * 0.5, 3.0) : 1.0`. -/
noncomputable def spreadOf (hand otherHand : HandState ℝ) : ℝ :=
  if otherHand.isActive && !otherHand.isFist then
    1.0 + min (interHandDist hand otherHand * 0.5) 3.0
  else
    1.0

/-- The live per-particle ambient-cloud target (Lissajous-style swirl plus
drift, already folded together as `tx + driftX` etc.). -/
noncomputable def ambientTarget (time spread : ℝ) (i : ℕ) : ℝ × ℝ × ℝ :=
  let seed : ℝ := (i : ℝ) * 0.42
  (Real.sin (seed + time * 0.35) * 1.8 * spread +
     Real.sin (time * 0.15 + seed * 2) * 0.15,
   Real.cos (seed * 0.85 + time * 0.45) * 1.8 * spread +
     Real.cos (time * 0.2 + seed * 3) * 0.15,
   Real.sin (seed * 1.15 + time * 0.25) * 1.2 +
     Real.sin (time * 0.1 + seed * 1.5) * 0.15)

/-- The per-hand render-side state owned by `HandParticles`: the particle
position buffer, the group's anchor position and y-rotation, the visibility
flag, the shimmer transient with its previous-frame fist flag, and the
exposed material size/opacity. -/
structure RenderState where
  pos : Array ℝ
  anchor : Vec3 ℝ
  rotY : ℝ
  visible : Bool
  shimmer : ℝ
  prevIsFist : Bool
  size : ℝ
  opacity : ℝ

/-- One execution of `HandParticles`'s `useFrame` callback for one hand.
Mirrors the source order: shimmer set/decay and material update, anchor
follow and rotation, then the inactive early-return (which skips only the
particle update and visibility), then the locked-shape / overlay /
ambient-cloud particle loop. -/
noncomputable def frameStep (hand otherHand : HandState ℝ) (shapes : List (Array ℝ))
    (isShowingText : Bool) (textShape : Array ℝ) (lerpSpeeds : ℕ → ℝ)
    (time delta : ℝ) (st : RenderState) : RenderState :=
  let shimmer1 : ℝ := if hand.isFist && !st.prevIsFist then 1.0 else st.shimmer
  let shimmer2 : ℝ := max 0 (shimmer1 - delta * 2.5)
  let base : RenderState :=
    { st with
      prevIsFist := hand.isFist
      shimmer := shimmer2
      size := 0.014 * (1.0 + shimmer2 * 1.5)
      opacity := 0.85 + shimmer2 * 0.15
      anchor := ⟨st.anchor.x + (hand.position.x - st.anchor.x) * 0.15,
                 st.anchor.y + (hand.position.y - st.anchor.y) * 0.15,
                 st.anchor.z + (hand.position.z - st.anchor.z) * 0.15⟩
      rotY := st.rotY + delta * 0.4 }
  if !hand.isActive then { base with visible := false }
  else
    let base := { base with visible := true }
    if hand.isFist then
      match shapes[hand.shapeIndex % shapes.length]? with
      | some target =>
          { base with pos :=
              (morphWith
                (fun i => (target.getD (i * 3) 0, target.getD (i * 3 + 1) 0,
                           target.getD (i * 3 + 2) 0))
                (fun i => lerpSpeeds i) st.pos) }
      | none => base
    else if isShowingText then
      { base with pos :=
          (morphWith
            (fun i => (textShape.getD (i * 3) 0, textShape.getD (i * 3 + 1) 0,
                       textShape.getD (i * 3 + 2) 0))
            (fun i => lerpSpeeds i * 1.5) st.pos) }
    else
      { base with pos :=
          (morphWith (ambientTarget time (spreadOf hand otherHand))
            (fun _ => 0.05) st.pos) }

/-- Iterate `frameStep` over frames `0, 1, ..., n-1` with per-frame clock
times and deltas. -/
noncomputable def frameIter (hand otherHand : HandState ℝ) (shapes : List (Array ℝ))
    (isShowingText : Bool) (textShape : Array ℝ) (lerpSpeeds : ℕ → ℝ)
    (times deltas : ℕ → ℝ) : ℕ → RenderState → RenderState
  | 0, st => st
  | n + 1, st =>
      frameStep hand otherHand shapes isShowingText textShape lerpSpeeds
        (times n) (deltas n)
        (frameIter hand otherHand shapes isShowingText textShape lerpSpeeds
          times deltas n st)

/-! ### The overlay scheduler (`HologramScene`'s `trigger` effect)

`trigger` arms `setTimeout(..., 15000 + Math.random() * 30000)`; when it
fires, the flag turns on and a 3000 ms timeout turns it back off and re-arms
by calling `trigger` again.  With `u k` the `Math.random()` draw of the k-th
arming, the k-th "showing" window is `[overlayStart u k, overlayStart u k + 3000)`,
measured from the initial arming at time 0. -/

/-- The wait sampled for one arming: `15000 + Math.random() * 30000`. -/
def sampleDelay (u : ℝ) : ℝ := 15000 + u * 30000

/-- Start time of the k-th "showing" window: each window opens one sampled
delay after the previous window closed (the timer re-arms immediately). -/
def overlayStart (u : ℕ → ℝ) : ℕ → ℝ
  | 0 => sampleDelay (u 0)
  | k + 1 => overlayStart u k + 3000 + sampleDelay (u (k + 1))

/-- The overlay "showing" flag at time `t`. -/
def overlayShowing (u : ℕ → ℝ) (t : ℝ) : Prop :=
  ∃ k, overlayStart u k ≤ t ∧ t < overlayStart u k + 3000

/-! ### The shape library generators

Each generator is embedded over ℝ, with its `Math.random()` calls drawn from
a sample function at distinct indices.  Comparisons of real values in the
sources become classical `if`s.  `THREE.MathUtils.lerp (a, b, t) = a + (b - a) * t`
coincides with `lerp1`.  Generators whose grouped loops guard `count` against
`PARTICLE_COUNT` never actually hit the guard (their write counts are at most
4000), so the guards are dead code and the grouped fill is exact. -/

open scoped Classical

/-- Mirrors `getMeshPoints`: resample an external `three.js` geometry's vertex
buffer (`posArr`) cyclically into a full-size buffer. -/
noncomputable def getMeshPoints (posArr : List ℝ) : Array ℝ :=
  fillN (fun i =>
    let count := posArr.length / 3
    let idx := (i % count) * 3
    (posArr.getD idx 0, posArr.getD (idx + 1) 0, posArr.getD (idx + 2) 0))

/-- Mirrors `generateCrystalline`: three icosahedron layers (vertex buffers
supplied by `three.js` per layer), `⌊4000/3⌋` particles each. -/
noncomputable def generateCrystalline (icoLayer : ℕ → List ℝ) : Array ℝ :=
  fillGroups 3 (PARTICLE_COUNT / 3) (fun l p =>
    let layerPts := icoLayer l
    let srcIdx := (p % (layerPts.length / 3)) * 3
    (layerPts.getD srcIdx 0, layerPts.getD (srcIdx + 1) 0, layerPts.getD (srcIdx + 2) 0))

/-- Mirrors `generateOrbitingRings`: 5 tilted rings; the Euler rotation is the
external `THREE.Vector3.applyEuler` with angles `(tilt, tilt * 0.5, 0)`. -/
noncomputable def generateOrbitingRings
    (applyEuler : ℝ → ℝ → ℝ × ℝ × ℝ → ℝ × ℝ × ℝ) : Array ℝ :=
  fillGroups 5 (PARTICLE_COUNT / 5) (fun r p =>
    let radius := 0.3 + (r : ℝ) * 0.15
    let tilt := (r : ℝ) * (Real.pi / 5)
    let t := ((p : ℝ) / ((PARTICLE_COUNT / 5 : ℕ) : ℝ)) * Real.pi * 2
    applyEuler tilt (tilt * 0.5) (Real.cos t * radius, Real.sin t * radius, 0))

/-- Mirrors `generateDoubleHelix`. -/
noncomputable def generateDoubleHelix : Array ℝ :=
  fillN (fun i =>
    let t := ((i : ℝ) / (PARTICLE_COUNT : ℝ)) * Real.pi * 10
    let off : ℝ := if i % 2 = 0 then 0 else Real.pi
    (Real.cos (t + off) * 0.4,
     ((i : ℝ) / (PARTICLE_COUNT : ℝ)) * 1.6 - 0.8,
     Real.sin (t + off) * 0.4))

/-- Mirrors `generateMechanical`: 3 cogged gears. -/
noncomputable def generateMechanical : Array ℝ :=
  fillGroups 3 (PARTICLE_COUNT / 3) (fun g p =>
    let r := 0.4 + (g : ℝ) * 0.1
    let t := ((p : ℝ) / ((PARTICLE_COUNT / 3 : ℕ) : ℝ)) * Real.pi * 2
    let cog : ℝ := if 0 < Real.sin (t * 12) then 0.05 else 0
    (Real.cos t * (r + cog), Real.sin t * (r + cog), ((g : ℝ) - 1) * 0.2))

/-- Mirrors `generateFractalLattice`: a 6×6×6 grid of 18-particle jittered
nodes.  The source's `count`-overflow breaks are dead (216 · 18 = 3888 < 4000);
node `n` is grid cell `(n / 36, n / 6 % 6, n % 6)` and the write index is
`n * 18 + k`. -/
noncomputable def generateFractalLattice (r : ℕ → ℝ) : Array ℝ :=
  fillGroups 216 18 (fun n k =>
    let base := 3 * (n * 18 + k)
    ((((n / 36 : ℕ) : ℝ) - 3) * 0.3 + (r base - 0.5) * 0.05,
     (((n / 6 % 6 : ℕ) : ℝ) - 3) * 0.3 + (r (base + 1) - 0.5) * 0.05,
     (((n % 6 : ℕ) : ℝ) - 3) * 0.3 + (r (base + 2) - 0.5) * 0.05))

/-- Mirrors `generateVortex`. -/
noncomputable def generateVortex : Array ℝ :=
  fillN (fun i =>
    let t := ((i : ℝ) / (PARTICLE_COUNT : ℝ)) * Real.pi * 40
    let r := ((i : ℝ) / (PARTICLE_COUNT : ℝ)) * 0.8
    (Real.cos t * r, Real.sin t * r, ((i : ℝ) / (PARTICLE_COUNT : ℝ)) * 1.8 - 0.9))

/-- Mirrors `generateMolecule`: 15 random atom centres (draws 0..44), then a
spherical shell of `⌊4000/15⌋` particles around each (two draws per
particle). -/
noncomputable def generateMolecule (r : ℕ → ℝ) : Array ℝ :=
  fillGroups 15 (PARTICLE_COUNT / 15) (fun a p =>
    let cx := (r (3 * a) - 0.5) * 1.5
    let cy := (r (3 * a + 1) - 0.5) * 1.5
    let cz := (r (3 * a + 2) - 0.5) * 1.5
    let base := 45 + 2 * (a * (PARTICLE_COUNT / 15) + p)
    let phi := r base * Real.pi * 2
    let theta := r (base + 1) * Real.pi
    (cx + 0.12 * Real.sin theta * Real.cos phi,
     cy + 0.12 * Real.sin theta * Real.sin phi,
     cz + 0.12 * Real.cos theta))

/-- Mirrors `generateCityscape`: 25 random buildings (four draws each), 160
wall particles per building (three draws each: height, wall side, offset). -/
noncomputable def generateCityscape (r : ℕ → ℝ) : Array ℝ :=
  fillGroups 25 (PARTICLE_COUNT / 25) (fun b p =>
    let bx := (r (4 * b) - 0.5) * 1.4
    let bz := (r (4 * b + 1) - 0.5) * 1.4
    let h := 0.3 + r (4 * b + 2) * 1.2
    let w := 0.1 + r (4 * b + 3) * 0.15
    let base := 100 + 3 * (b * (PARTICLE_COUNT / 25) + p)
    let y := r base * h - 0.8
    let side := Int.floor (r (base + 1) * 4)
    let off := (r (base + 2) - 0.5) * w
    if side = 0 then (bx - w / 2, y, bz + off)
    else if side = 1 then (bx + w / 2, y, bz + off)
    else if side = 2 then (bx + off, y, bz - w / 2)
    else (bx + off, y, bz + w / 2))

/-- Mirrors `generateSacredGeometry`: 12 interlocking rings. -/
noncomputable def generateSacredGeometry : Array ℝ :=
  fillGroups 12 (PARTICLE_COUNT / 12) (fun n p =>
    let angle := ((n : ℝ) / 12) * Real.pi * 2
    let t := ((p : ℝ) / ((PARTICLE_COUNT / 12 : ℕ) : ℝ)) * Real.pi * 2
    (Real.cos angle * 0.6 + Real.cos t * 0.2,
     Real.sin angle * 0.6 + Real.sin t * 0.2,
     Real.sin (t * 3) * 0.1))

/-- The eight cube vertices used by `generateTesseract`. -/
def tesseractVerts : List (ℝ × ℝ × ℝ) :=
  [(-1, -1, -1), (1, -1, -1), (1, 1, -1), (-1, 1, -1),
   (-1, -1, 1), (1, -1, 1), (1, 1, 1), (-1, 1, 1)]

/-- Mirrors `generateTesseract`: 500 particles lerped outward along each of
the 8 cube diagonal edges (the `count` guard is dead: 8 · 500 = 4000). -/
noncomputable def generateTesseract : Array ℝ :=
  fillGroups 8 (PARTICLE_COUNT / 8) (fun i p =>
    let v := tesseractVerts.getD i (0, 0, 0)
    let t := (p : ℝ) / ((PARTICLE_COUNT / 8 : ℕ) : ℝ)
    (lerp1 (v.1 * 0.3) (v.1 * 0.7) t,
     lerp1 (v.2.1 * 0.3) (v.2.1 * 0.7) t,
     lerp1 (v.2.2 * 0.3) (v.2.2 * 0.7) t))

/-- Mirrors `generateNeuralNetwork`: 25 random nodes (draws 0..74), each
particle lerped between node `i % 25` and node `(i + 3) % 25` at a random
parameter (draws 75+). -/
noncomputable def generateNeuralNetwork (r : ℕ → ℝ) : Array ℝ :=
  fillN (fun i =>
    let node := fun (n : ℕ) =>
      ((r (3 * n) - 0.5) * 1.6, (r (3 * n + 1) - 0.5) * 1.6, (r (3 * n + 2) - 0.5) * 1.6)
    let n1 := node (i % 25)
    let n2 := node ((i + 3) % 25)
    let t := r (75 + i)
    (lerp1 n1.1 n2.1 t, lerp1 n1.2.1 n2.2.1 t, lerp1 n1.2.2 n2.2.2 t))

/-- Mirrors `generateDigitalSingularity`: a dense random core for the first
70 % of particles, a flat accretion ring for the rest. -/
noncomputable def generateDigitalSingularity (r : ℕ → ℝ) : Array ℝ :=
  fillN (fun i =>
    if (i : ℝ) < (PARTICLE_COUNT : ℝ) * 0.7 then
      let rr := 0.05 + r (3 * i) * 0.1
      let phi := r (3 * i + 1) * Real.pi * 2
      let theta := r (3 * i + 2) * Real.pi
      (rr * Real.sin theta * Real.cos phi, rr * Real.sin theta * Real.sin phi,
       rr * Real.cos theta)
    else
      let rr := 0.2 + r (3 * i) * 1.2
      let angle := r (3 * i + 1) * Real.pi * 2
      (Real.cos angle * rr, Real.sin angle * rr, (r (3 * i + 2) - 0.5) * 0.05))

/-- Mirrors `generateCyberEye`: iris disc (every third particle) plus a
half-spherical eyeball shell. -/
noncomputable def generateCyberEye (r : ℕ → ℝ) : Array ℝ :=
  fillN (fun i =>
    if i % 3 = 0 then
      let rr := 0.4 + r (2 * i) * 0.2
      let t := r (2 * i + 1) * Real.pi * 2
      (Real.cos t * rr, Real.sin t * rr,
       Real.sqrt (max 0 (0.64 - rr * rr)) - 0.4)
    else
      let phi := r (2 * i) * Real.pi * 2
      let theta := r (2 * i + 1) * Real.pi * 0.5
      (0.8 * Real.sin theta * Real.cos phi, 0.8 * Real.sin theta * Real.sin phi,
       0.8 * Real.cos theta - 0.4))

/-- Mirrors `generateCrystallineFlower`: a six-petalled rose curve. -/
noncomputable def generateCrystallineFlower : Array ℝ :=
  fillN (fun i =>
    let t := ((i : ℝ) / (PARTICLE_COUNT : ℝ)) * Real.pi * 2
    let r := 0.3 + 0.5 * |Real.cos (t * 6 / 2)|
    (Real.cos t * r, Real.sin t * r, Real.sin (t * 6) * 0.1))

/-- Mirrors `generateInterferenceWave`: a damped radial ripple over a random
planar scatter. -/
noncomputable def generateInterferenceWave (r : ℕ → ℝ) : Array ℝ :=
  fillN (fun i =>
    let x := (r (2 * i) - 0.5) * 2
    let z := (r (2 * i + 1) - 0.5) * 2
    let rr := Real.sqrt (x * x + z * z)
    (x, Real.sin (rr * 10) * 0.3 * Real.exp (-rr), z))

/-- Mirrors `generateVoxelMonolith`: a uniform random box. -/
noncomputable def generateVoxelMonolith (r : ℕ → ℝ) : Array ℝ :=
  fillN (fun i =>
    ((r (3 * i) - 0.5) * 0.6, (r (3 * i + 1) - 0.5) * 1.4, (r (3 * i + 2) - 0.5) * 0.3))

/-- Mirrors `generateRibbonSpiral`. -/
noncomputable def generateRibbonSpiral (r : ℕ → ℝ) : Array ℝ :=
  fillN (fun i =>
    let t := ((i : ℝ) / (PARTICLE_COUNT : ℝ)) * Real.pi * 8
    let off := (r i - 0.5) * 0.2
    (Real.cos t * (0.5 + off), t * 0.1 - 1.2, Real.sin t * (0.5 + off)))

/-- Mirrors `generateGeometricGeode`: an outer shell for the first half of the
particles, a random inner core for the rest. -/
noncomputable def generateGeometricGeode (r : ℕ → ℝ) : Array ℝ :=
  fillN (fun i =>
    let rr : ℝ :=
      if (i : ℝ) < (PARTICLE_COUNT : ℝ) * 0.5 then 0.8 else 0.4 + r (3 * i) * 0.2
    let phi := r (3 * i + 1) * Real.pi * 2
    let theta := r (3 * i + 2) * Real.pi
    (rr * Real.sin theta * Real.cos phi, rr * Real.sin theta * Real.sin phi,
     rr * Real.cos theta))

/-- Mirrors `generateQuantumEntanglement`: two random blobs at `x = ±0.7` with
a sinusoidal filament between them. -/
noncomputable def generateQuantumEntanglement (r : ℕ → ℝ) : Array ℝ :=
  fillN (fun i =>
    let side : ℝ :=
      if (i : ℝ) < (PARTICLE_COUNT : ℝ) * 0.4 then -1
      else if (i : ℝ) < (PARTICLE_COUNT : ℝ) * 0.8 then 1 else 0
    if side ≠ 0 then
      let rr := r (3 * i) * 0.3
      let p := r (3 * i + 1) * Real.pi * 2
      let t := r (3 * i + 2) * Real.pi
      (side * 0.7 + rr * Real.sin t * Real.cos p, rr * Real.sin t * Real.sin p,
       rr * Real.cos t)
    else
      let t := (r (3 * i) - 0.5) * 1.4
      (t, Real.sin (t * 10) * 0.1, Real.cos (t * 10) * 0.1))

/-- Mirrors `generateStarGate`: a thick ring (radius 0.9 for the first 80 % of
particles, 0.8 for the rest). -/
noncomputable def generateStarGate (r : ℕ → ℝ) : Array ℝ :=
  fillN (fun i =>
    let rr : ℝ := if (i : ℝ) < (PARTICLE_COUNT : ℝ) * 0.8 then 0.9 else 0.8
    let t := r (2 * i) * Real.pi * 2
    (Real.cos t * rr, Real.sin t * rr, (r (2 * i + 1) - 0.5) * 0.1))

/-- The five pyramid vertices used by `generatePyramidFractal`. -/
def pyramidVerts : List (ℝ × ℝ × ℝ) :=
  [(0, 1, 0), (1, -1, 1), (-1, -1, 1), (-1, -1, -1), (1, -1, -1)]

/-- Mirrors `generatePyramidFractal`: random points along the 8 edges of a
square pyramid. -/
noncomputable def generatePyramidFractal (r : ℕ → ℝ) : Array ℝ :=
  fillN (fun i =>
    let edge := i % 8
    let t := r i
    let p1 := if edge < 4 then pyramidVerts.getD 0 (0, 0, 0)
              else pyramidVerts.getD (edge - 3) (0, 0, 0)
    let p2 := if edge < 4 then pyramidVerts.getD (edge + 1) (0, 0, 0)
              else pyramidVerts.getD (if edge = 7 then 1 else edge - 2) (0, 0, 0)
    (lerp1 p1.1 p2.1 t * 0.6, lerp1 p1.2.1 p2.2.1 t * 0.6, lerp1 p1.2.2 p2.2.2 t * 0.6))

/-- Mirrors `generateDNALattice`: two helix strands plus random rungs between
them (every third particle). -/
noncomputable def generateDNALattice (r : ℕ → ℝ) : Array ℝ :=
  fillN (fun i =>
    let t := ((i : ℝ) / (PARTICLE_COUNT : ℝ)) * Real.pi * 10
    let y := ((i : ℝ) / (PARTICLE_COUNT : ℝ)) * 1.6 - 0.8
    if i % 3 < 2 then
      let off : ℝ := if i % 3 = 0 then 0 else Real.pi
      (Real.cos (t + off) * 0.4, y, Real.sin (t + off) * 0.4)
    else
      let lerpT := r i
      (lerp1 (Real.cos t * 0.4) (Real.cos (t + Real.pi) * 0.4) lerpT, y,
       lerp1 (Real.sin t * 0.4) (Real.sin (t + Real.pi) * 0.4) lerpT))

/-- Mirrors `generateSupernova`: spherical scatter with quadratically
core-biased radius. -/
noncomputable def generateSupernova (r : ℕ → ℝ) : Array ℝ :=
  fillN (fun i =>
    let rr := r (3 * i) ^ 2 * 1.5
    let p := r (3 * i + 1) * Real.pi * 2
    let t := r (3 * i + 2) * Real.pi
    (rr * Real.sin t * Real.cos p, rr * Real.sin t * Real.sin p, rr * Real.cos t))

/-- Mirrors `generateHyperCore`: three concentric random shells of radii
`0.25, 0.5, 0.75` by particle index mod 3. -/
noncomputable def generateHyperCore (r : ℕ → ℝ) : Array ℝ :=
  fillN (fun i =>
    let rr := ((i % 3 : ℕ) + 1 : ℝ) * 0.25
    let p := r (2 * i) * Real.pi * 2
    let t := r (2 * i + 1) * Real.pi
    (rr * Real.sin t * Real.cos p, rr * Real.sin t * Real.sin p, rr * Real.cos t))

/-- Mirrors `generateSpikyUrchin`: a radius-0.3 ball with every tenth particle
thrown outward as a spike. -/
noncomputable def generateSpikyUrchin (r : ℕ → ℝ) : Array ℝ :=
  fillN (fun i =>
    let p := r (3 * i) * Real.pi * 2
    let t := r (3 * i + 1) * Real.pi
    let rr : ℝ := if i % 10 = 0 then 0.3 + r (3 * i + 2) * 0.7 else 0.3
    (rr * Real.sin t * Real.cos p, rr * Real.sin t * Real.sin p, rr * Real.cos t))

/-- Mirrors `generateDataStream`: ten vertical random columns. -/
noncomputable def generateDataStream (r : ℕ → ℝ) : Array ℝ :=
  fillN (fun i =>
    let col := i % 10
    (((col : ℝ) - 5) * 0.2, r (2 * i) * 2 - 1, (r (2 * i + 1) - 0.5) * 0.1))

/-- Mirrors `generateWarpTunnel`: a flared tube along z. -/
noncomputable def generateWarpTunnel (r : ℕ → ℝ) : Array ℝ :=
  fillN (fun i =>
    let z := ((i : ℝ) / (PARTICLE_COUNT : ℝ)) * 4 - 2
    let rr := 0.5 + |z| * 0.2
    let t := r i * Real.pi * 2
    (Real.cos t * rr, Real.sin t * rr, z))

/-- Mirrors `generateFloatingIslands`: 5 random island centres (draws 0..14)
each owning every fifth particle (draws 15+). -/
noncomputable def generateFloatingIslands (r : ℕ → ℝ) : Array ℝ :=
  fillN (fun i =>
    let c := i % 5
    let cx := (r (3 * c) - 0.5) * 1.8
    let cy := (r (3 * c + 1) - 0.5) * 1.2
    let cz := (r (3 * c + 2) - 0.5) * 1.2
    (cx + (r (15 + 3 * i) - 0.5) * 0.4,
     cy + (r (16 + 3 * i) - 0.5) * 0.2,
     cz + (r (17 + 3 * i) - 0.5) * 0.4))

/-- Mirrors `generateAuraShield`: two interleaved spherical shells of radii
0.8 and 0.85. -/
noncomputable def generateAuraShield (r : ℕ → ℝ) : Array ℝ :=
  fillN (fun i =>
    let rr := 0.8 + ((i % 2 : ℕ) : ℝ) * 0.05
    let p := r (2 * i) * Real.pi * 2
    let t := r (2 * i + 1) * Real.pi
    (rr * Real.sin t * Real.cos p, rr * Real.sin t * Real.sin p, rr * Real.cos t))

/-- Mirrors `generateCyberDisc`: four concentric spiral rings with random
z-jitter. -/
noncomputable def generateCyberDisc (r : ℕ → ℝ) : Array ℝ :=
  fillN (fun i =>
    let rr := 0.3 + ((i % 4 : ℕ) : ℝ) * 0.15
    let t := ((i : ℝ) / (PARTICLE_COUNT : ℝ)) * Real.pi * 2 * 4
    (Real.cos t * rr, Real.sin t * rr, (r i - 0.5) * 0.05))

/-- Mirrors `generateMobiusStrip`. -/
noncomputable def generateMobiusStrip (r : ℕ → ℝ) : Array ℝ :=
  fillN (fun i =>
    let u := ((i : ℝ) / (PARTICLE_COUNT : ℝ)) * Real.pi * 2
    let v := (r i - 0.5) * 0.4
    ((1 + v * Real.cos (u / 2)) * Real.cos u * 0.8,
     (1 + v * Real.cos (u / 2)) * Real.sin u * 0.8,
     v * Real.sin (u / 2) * 0.8))

/-- Mirrors `generateVoronoiShell`: a bumpy spherical shell. -/
noncomputable def generateVoronoiShell (r : ℕ → ℝ) : Array ℝ :=
  fillN (fun i =>
    let phi := r (2 * i) * Real.pi * 2
    let theta := r (2 * i + 1) * Real.pi
    let rr := 0.7 + Real.sin (phi * 5) * Real.cos (theta * 5) * 0.1
    (rr * Real.sin theta * Real.cos phi, rr * Real.sin theta * Real.sin phi,
     rr * Real.cos theta))

/-- Mirrors `generateBinaryPillar`: eight vertical columns; about 5 % of the
particles are "glitched" out of view by overwriting y with 100. -/
noncomputable def generateBinaryPillar (r : ℕ → ℝ) : Array ℝ :=
  fillN (fun i =>
    let col := i % 8
    let y := r (3 * i) * 1.6 - 0.8
    (((col : ℝ) - 4) * 0.18,
     if 0.95 < r (3 * i + 2) then 100 else y,
     (r (3 * i + 1) - 0.5) * 0.2))

/-- Mirrors `generateMagneticField`: five nested deterministic field loops. -/
noncomputable def generateMagneticField : Array ℝ :=
  fillN (fun i =>
    let angle := ((i : ℝ) / (PARTICLE_COUNT : ℝ)) * Real.pi * 2
    let loop := ((i % 5 : ℕ) : ℝ) * 0.2
    (Real.sin angle * (0.3 + loop), Real.cos angle * (0.6 + loop),
     Real.sin (angle * 2) * 0.3))

/-- Mirrors `generateHelixSphere`: a single spiral winding over a sphere. -/
noncomputable def generateHelixSphere : Array ℝ :=
  fillN (fun i =>
    let t := (i : ℝ) / (PARTICLE_COUNT : ℝ)
    let phi := t * Real.pi * 20
    let theta := t * Real.pi
    (0.7 * Real.sin theta * Real.cos phi, 0.7 * Real.sin theta * Real.sin phi,
     0.7 * Real.cos theta))

/-- Mirrors `generatePulsarCore`: a flat random core for the first 40 % of
particles, two polar jets for the rest. -/
noncomputable def generatePulsarCore (r : ℕ → ℝ) : Array ℝ :=
  fillN (fun i =>
    if (i : ℝ) < (PARTICLE_COUNT : ℝ) * 0.4 then
      let rr := r (3 * i) * 0.2
      let p := r (3 * i + 1) * Real.pi * 2
      (Real.cos p * rr, Real.sin p * rr, (r (3 * i + 2) - 0.5) * 0.2)
    else
      let jet : ℝ := if i % 2 = 0 then 1 else -1
      let t := r (3 * i) * 1.5
      ((r (3 * i + 1) - 0.5) * 0.05, jet * t, (r (3 * i + 2) - 0.5) * 0.05))

/-- Mirrors `generateDigitalWeb`: 20 random nodes (draws 0..59), particles
lerped between consecutive nodes (draws 60+). -/
noncomputable def generateDigitalWeb (r : ℕ → ℝ) : Array ℝ :=
  fillN (fun i =>
    let node := fun (n : ℕ) =>
      ((r (3 * n) - 0.5) * 1.5, (r (3 * n + 1) - 0.5) * 1.2, (r (3 * n + 2) - 0.5) * 1.2)
    let n1 := node (i % 20)
    let n2 := node ((i + 1) % 20)
    let t := r (60 + i)
    (lerp1 n1.1 n2.1 t, lerp1 n1.2.1 n2.2.1 t, lerp1 n1.2.2 n2.2.2 t))

/-- Mirrors `generateExplodedCube`: six scattered faces pushed outward by a
random radius. -/
noncomputable def generateExplodedCube (r : ℕ → ℝ) : Array ℝ :=
  fillN (fun i =>
    let face := i % 6
    let rr := 0.6 + r (3 * i) * 0.4
    let a := r (3 * i + 1) - 0.5
    let b := r (3 * i + 2) - 0.5
    if face = 0 then (rr, a, b)
    else if face = 1 then (-rr, a, b)
    else if face = 2 then (a, rr, b)
    else if face = 3 then (a, -rr, b)
    else if face = 4 then (a, b, rr)
    else (a, b, -rr))

/-- Mirrors `generateCloverKnot`: a trefoil knot curve. -/
noncomputable def generateCloverKnot : Array ℝ :=
  fillN (fun i =>
    let t := ((i : ℝ) / (PARTICLE_COUNT : ℝ)) * Real.pi * 2
    ((Real.sin t + 2 * Real.sin (2 * t)) * 0.3,
     (Real.cos t - 2 * Real.cos (2 * t)) * 0.3,
     -Real.sin (3 * t) * 0.3))

/-- Mirrors `generateKleinBottle`: the figure-8 immersion formulas, split at
`u < π`, scaled by 0.05. -/
noncomputable def generateKleinBottle (r : ℕ → ℝ) : Array ℝ :=
  fillN (fun i =>
    let u := ((i : ℝ) / (PARTICLE_COUNT : ℝ)) * Real.pi * 2
    let v := r i * Real.pi * 2
    let x : ℝ :=
      if u < Real.pi then
        6 * Real.cos u * (1 + Real.sin u) +
          4 * (1 - Real.cos u / 2) * Real.cos u * Real.cos v
      else
        6 * Real.cos u * (1 + Real.sin u) +
          4 * (1 - Real.cos u / 2) * Real.cos (v + Real.pi)
    let y : ℝ :=
      if u < Real.pi then
        16 * Real.sin u + 4 * (1 - Real.cos u / 2) * Real.sin u * Real.cos v
      else
        16 * Real.sin u
    let z := 4 * (1 - Real.cos u / 2) * Real.sin v
    (x * 0.05, y * 0.05, z * 0.05))

/-- Mirrors `generateHyperboloid`. -/
noncomputable def generateHyperboloid (r : ℕ → ℝ) : Array ℝ :=
  fillN (fun i =>
    let z := ((i : ℝ) / (PARTICLE_COUNT : ℝ)) * 2 - 1
    let theta := r i * Real.pi * 2
    let rr := 0.4 * Real.sqrt (1 + z * z)
    (rr * Real.cos theta, z * 0.8, rr * Real.sin theta))

/-! #### `generateFractalTree` -/

/-- One pending branch of the fractal-tree builder's explicit stack. -/
structure TreeItem where
  p : ℝ × ℝ × ℝ
  dir : ℝ × ℝ × ℝ
  len : ℝ
  depth : ℕ

/-- Normalisation of a 3-vector (`THREE.Vector3.normalize`); the zero vector
maps to zero (ℝ-division by zero). -/
noncomputable def vnormalize (v : ℝ × ℝ × ℝ) : ℝ × ℝ × ℝ :=
  let n := Real.sqrt (v.1 * v.1 + v.2.1 * v.2.1 + v.2.2 * v.2.2)
  (v.1 / n, v.2.1 / n, v.2.2 / n)

/-- The fractal-tree node builder: a fuel-bounded rendering of the source's
`while (stack.length > 0 && nodes.length < 100)` loop, threading the random
index `k`.  `rot dir axis angle` is the external
`THREE.Vector3.applyAxisAngle`.  Fuel exhaustion returns the nodes collected
so far (on actual runs the loop always terminates well within the fuel
supplied, since every branch has depth at most 6). -/
noncomputable def treeBuild (rot : ℝ × ℝ × ℝ → ℝ × ℝ × ℝ → ℝ → ℝ × ℝ × ℝ)
    (r : ℕ → ℝ) :
    ℕ → List TreeItem → List (ℝ × ℝ × ℝ) → ℕ → List (ℝ × ℝ × ℝ)
  | 0, _, nodes, _ => nodes
  | _ + 1, [], nodes, _ => nodes
  | fuel + 1, it :: rest, nodes, k =>
      if 100 ≤ nodes.length then nodes
      else if 5 < it.depth then treeBuild rot r fuel rest nodes k
      else
        let nextP := (it.p.1 + it.dir.1 * it.len, it.p.2.1 + it.dir.2.1 * it.len,
                      it.p.2.2 + it.dir.2.2 * it.len)
        let count := (2 + Int.floor (r k * 2)).toNat
        let child := fun (j : ℕ) =>
          let axis := vnormalize (r (k + 1 + 4 * j), r (k + 2 + 4 * j), r (k + 3 + 4 * j))
          let angle := 0.5 + r (k + 4 + 4 * j) * 0.5
          TreeItem.mk nextP (rot it.dir axis angle) (it.len * 0.7) (it.depth + 1)
        treeBuild rot r fuel (((List.range count).map child).reverse ++ rest)
          (nodes ++ [nextP]) (k + 1 + 4 * count)

/-- Mirrors `generateFractalTree`: build the branching node list (seeded at
`(0, -0.8, 0)` growing upward), then lerp each particle between consecutive
nodes. -/
noncomputable def generateFractalTree
    (rot : ℝ × ℝ × ℝ → ℝ × ℝ × ℝ → ℝ → ℝ × ℝ × ℝ) (rBuild rPts : ℕ → ℝ) :
    Array ℝ :=
  let nodes := treeBuild rot rBuild 100000
    [TreeItem.mk (0, -0.8, 0) (0, 1, 0) 0.4 0] [(0, -0.8, 0)] 0
  fillN (fun i =>
    let n1 := nodes.getD (i % nodes.length) (0, 0, 0)
    let n2 := nodes.getD ((i + 1) % nodes.length) (0, 0, 0)
    let t := rPts i
    (lerp1 n1.1 n2.1 t, lerp1 n1.2.1 n2.2.1 t, lerp1 n1.2.2 n2.2.2 t))

/-- Mirrors `generateGalacticSpiral`: four spiral arms with inward-growing
scatter. -/
noncomputable def generateGalacticSpiral (r : ℕ → ℝ) : Array ℝ :=
  fillN (fun i =>
    let arm := i % 4
    let t := r (4 * i)
    let angle := t * Real.pi * 4 + ((arm : ℝ) * Real.pi * 2) / 4
    let rr := t * 1.2
    let spread := (1 - t) * 0.2
    (Real.cos angle * rr + (r (4 * i + 1) - 0.5) * spread,
     (r (4 * i + 2) - 0.5) * 0.1 * (1 - t),
     Real.sin angle * rr + (r (4 * i + 3) - 0.5) * spread))

/-- Mirrors `generateCalyx`: a five-petalled cup curve. -/
noncomputable def generateCalyx : Array ℝ :=
  fillN (fun i =>
    let t := ((i : ℝ) / (PARTICLE_COUNT : ℝ)) * Real.pi * 2
    let rr := Real.sin (t * 5) * 0.4 + 0.5
    let h := Real.cos (t * 5) * 0.2 + t * 0.1
    (Real.cos t * rr, h - 0.4, Real.sin t * rr))

/-! #### `generateGyroid` (rejection sampling) -/

/-- The gyroid acceptance test `Math.abs(val) < 0.1` on a candidate point. -/
noncomputable def gyroidAccept (x y z : ℝ) : Prop :=
  |Real.sin x * Real.cos y + Real.sin y * Real.cos z + Real.sin z * Real.cos x| < 0.1

/-- The body of `generateGyroid`'s `while (count < PARTICLE_COUNT)` rejection
loop, rendered with explicit fuel: `none` means the loop has not finished
within `fuel` iterations (the source simply keeps spinning). -/
noncomputable def gyroidLoop (r : ℕ → ℝ) :
    ℕ → ℕ → ℕ → Array ℝ → Option (Array ℝ)
  | 0, _, _, _ => none
  | fuel + 1, count, k, acc =>
      if PARTICLE_COUNT ≤ count then some acc
      else
        let x := (r k - 0.5) * Real.pi * 2
        let y := (r (k + 1) - 0.5) * Real.pi * 2
        let z := (r (k + 2) - 0.5) * Real.pi * 2
        if gyroidAccept x y z then
          gyroidLoop r fuel (count + 1) (k + 3)
            (writeTriple acc count (x * 0.25, y * 0.25, z * 0.25))
        else
          gyroidLoop r fuel count (k + 3) acc

/-- Mirrors `generateGyroid` up to the chosen fuel bound: `some` buffer if the
rejection loop collects 4000 accepted samples within `fuel` candidate draws,
`none` otherwise (in which case the source's `while` loop never exits). -/
noncomputable def generateGyroid (fuel : ℕ) (r : ℕ → ℝ) : Option (Array ℝ) :=
  gyroidLoop r fuel 0 0 zeroBuffer

/-- The random stream `r` makes `generateGyroid`'s rejection loop spin
forever: no amount of fuel completes it. -/
def gyroidNeverReturns (r : ℕ → ℝ) : Prop :=
  ∀ fuel, generateGyroid fuel r = none

/-- The gyroid library entry, with a zero buffer in the divergent case so the
library list is total (the source would instead never finish building the
library). -/
noncomputable def generateGyroidTotal (fuel : ℕ) (r : ℕ → ℝ) : Array ℝ :=
  (generateGyroid fuel r).getD zeroBuffer

/-- The eight cube corners of `generateSierpinskiCube`'s chaos game. -/
def sierpinskiCorners : List (ℝ × ℝ × ℝ) :=
  [(-1, -1, -1), (1, -1, -1), (1, 1, -1), (-1, 1, -1),
   (-1, -1, 1), (1, -1, 1), (1, 1, 1), (-1, 1, 1)]

/-- One chaos-game iteration of `generateSierpinskiCube`: pull `curr` a third
of the way toward a random corner and write the scaled point at particle
`i`. -/
noncomputable def sierpinskiStep (r : ℕ → ℝ) (acc : (ℝ × ℝ × ℝ) × Array ℝ)
    (i : ℕ) : (ℝ × ℝ × ℝ) × Array ℝ :=
  let target := sierpinskiCorners.getD (Int.floor (r i * 8)).toNat (0, 0, 0)
  let curr := ((acc.1.1 + target.1) / 3, (acc.1.2.1 + target.2.1) / 3,
               (acc.1.2.2 + target.2.2) / 3)
  (curr, writeTriple acc.2 i (curr.1 * 1.5, curr.2.1 * 1.5, curr.2.2 * 1.5))

/-- Mirrors `generateSierpinskiCube`: the chaos-game iteration
`curr = (curr + corner) / 3` threading `curr` through all 4000 writes. -/
noncomputable def generateSierpinskiCube (r : ℕ → ℝ) : Array ℝ :=
  ((List.range PARTICLE_COUNT).foldl (sierpinskiStep r) ((0, 0, 0), zeroBuffer)).2

/-- Mirrors `generateNautilusShell`: a logarithmic-spiral tube. -/
noncomputable def generateNautilusShell (r : ℕ → ℝ) : Array ℝ :=
  fillN (fun i =>
    let t := ((i : ℝ) / (PARTICLE_COUNT : ℝ)) * Real.pi * 8
    let rr := 0.1 * Real.exp (0.15 * t)
    let theta := r i * Real.pi * 2
    let ringR := rr * 0.2
    ((rr + ringR * Real.cos theta) * Real.cos t * 0.4,
     ringR * Real.sin theta * 0.4,
     (rr + ringR * Real.cos theta) * Real.sin t * 0.4))

/-- Mirrors `generateRibbonKnot`: the trefoil with a random shared offset. -/
noncomputable def generateRibbonKnot (r : ℕ → ℝ) : Array ℝ :=
  fillN (fun i =>
    let t := ((i : ℝ) / (PARTICLE_COUNT : ℝ)) * Real.pi * 2
    let x := Real.sin t + 2 * Real.sin (2 * t)
    let y := Real.cos t - 2 * Real.cos (2 * t)
    let z := -Real.sin (3 * t)
    let off := (r i - 0.5) * 0.15
    ((x + off) * 0.3, (y + off) * 0.3, (z + off) * 0.3))

/-- Mirrors `generateDataFountain`: a sinusoidally bulged random fountain. -/
noncomputable def generateDataFountain (r : ℕ → ℝ) : Array ℝ :=
  fillN (fun i =>
    let t := r (2 * i)
    let angle := r (2 * i + 1) * Real.pi * 2
    let rr := Real.sin (t * Real.pi) * 0.4
    (Real.cos angle * rr, (t * 2 - 1) * 0.8, Real.sin angle * rr))

/-! #### The `LORDx` glyph generator -/

/-- One stroke of the glyph: a straight segment or a circular arc. -/
inductive LordSeg
  | seg (sx sy ex ey : ℝ)
  | arc (cx cy radius sa ea : ℝ)

/-- The ten strokes pushed by `generateLORDx`. -/
noncomputable def lordSegs : List LordSeg :=
  [LordSeg.seg (-1.4) 0.5 (-1.4) (-0.5),
   LordSeg.seg (-1.4) (-0.5) (-1.0) (-0.5),
   LordSeg.arc (-0.5) 0 0.4 0 (Real.pi * 2),
   LordSeg.seg 0.2 0.5 0.2 (-0.5),
   LordSeg.arc 0.2 0.25 0.25 (-(Real.pi / 2)) (Real.pi / 2),
   LordSeg.seg 0.2 0 0.6 (-0.5),
   LordSeg.seg 0.9 0.5 0.9 (-0.5),
   LordSeg.arc 0.9 0 0.5 (-(Real.pi / 2)) (Real.pi / 2),
   LordSeg.seg 1.6 0.2 2.0 (-0.2),
   LordSeg.seg 2.0 0.2 1.6 (-0.2)]

/-- Mirrors `generateLORDx`: each stroke receives an equal slice of
`⌊4000/10⌋ = 400` particles sampled along its parameter, every particle with
its own random z-depth (the `count` guard is dead: 10 · 400 = 4000). -/
noncomputable def generateLORDx (r : ℕ → ℝ) : Array ℝ :=
  fillGroups lordSegs.length (PARTICLE_COUNT / lordSegs.length) (fun si i =>
    let per := PARTICLE_COUNT / lordSegs.length
    let t := (i : ℝ) / (per : ℝ)
    let zDepth := (r (si * per + i) - 0.5) * 0.25
    match lordSegs.getD si (LordSeg.seg 0 0 0 0) with
    | LordSeg.seg sx sy ex ey => (lerp1 sx ex t, lerp1 sy ey t, zDepth)
    | LordSeg.arc cx cy radius sa ea =>
        let a := sa + t * (ea - sa)
        (cx + Real.cos a * radius, cy + Real.sin a * radius, zDepth))

/-! #### The library built at startup -/

/-- The external `three.js` inputs the library build depends on: the vertex
buffers of the mesh geometries sampled by `getMeshPoints`, the per-layer
icosahedron buffers of `generateCrystalline`, and the two vector-rotation
routines. -/
structure ThreeEnv where
  icosahedron07 : List ℝ
  torus01 : List ℝ
  box08 : List ℝ
  dodecahedron08 : List ℝ
  torusKnot : List ℝ
  sphere07 : List ℝ
  capsule : List ℝ
  octahedron : List ℝ
  icoLayer : ℕ → List ℝ
  applyEuler : ℝ → ℝ → ℝ × ℝ × ℝ → ℝ × ℝ × ℝ
  applyAxisAngle : ℝ × ℝ × ℝ → ℝ × ℝ × ℝ → ℝ → ℝ × ℝ × ℝ

/-- Mirrors the `shapes` `useMemo` list of `HologramScene` — the shape library
actually built at startup, in push order.  `rs k` is the random stream
consumed by the k-th entry (so the two `generateFractalLattice` entries, for
example, draw independently, as in the source). -/
noncomputable def shapesList (env : ThreeEnv) (rs : ℕ → ℕ → ℝ)
    (gyroidFuel : ℕ) : List (Array ℝ) :=
  [getMeshPoints env.icosahedron07,
   getMeshPoints env.torus01,
   getMeshPoints env.box08,
   getMeshPoints env.dodecahedron08,
   generateCrystalline env.icoLayer,
   generateOrbitingRings env.applyEuler,
   getMeshPoints env.torusKnot,
   generateDoubleHelix,
   generateMechanical,
   generateFractalLattice (rs 9),
   generateSacredGeometry,
   getMeshPoints env.sphere07,
   generateVortex,
   generateMolecule (rs 13),
   generateCityscape (rs 14),
   getMeshPoints env.capsule,
   getMeshPoints env.octahedron,
   generateTesseract,
   generateNeuralNetwork (rs 18),
   generateDigitalSingularity (rs 19),
   generateCyberEye (rs 20),
   generateCrystallineFlower,
   generateInterferenceWave (rs 22),
   generateVoxelMonolith (rs 23),
   generateRibbonSpiral (rs 24),
   generateGeometricGeode (rs 25),
   generateQuantumEntanglement (rs 26),
   generateStarGate (rs 27),
   generatePyramidFractal (rs 28),
   generateDNALattice (rs 29),
   generateSupernova (rs 30),
   generateHyperCore (rs 31),
   generateSpikyUrchin (rs 32),
   generateDataStream (rs 33),
   generateWarpTunnel (rs 34),
   generateFloatingIslands (rs 35),
   generateAuraShield (rs 36),
   generateCrystalline env.icoLayer,
   generateOrbitingRings env.applyEuler,
   generateDoubleHelix,
   generateMechanical,
   generateFractalLattice (rs 41),
   generateCyberDisc (rs 42),
   generateMobiusStrip (rs 43),
   generateVoronoiShell (rs 44),
   generateBinaryPillar (rs 45),
   generateMagneticField,
   generateHelixSphere,
   generatePulsarCore (rs 48),
   generateDigitalWeb (rs 49),
   generateExplodedCube (rs 50),
   generateCloverKnot,
   generateKleinBottle (rs 52),
   generateHyperboloid (rs 53),
   generateFractalTree env.applyAxisAngle (fun n => rs 54 (2 * n)) (fun n => rs 54 (2 * n + 1)),
   generateGalacticSpiral (rs 55),
   generateCalyx,
   generateGyroidTotal gyroidFuel (rs 57),
   generateSierpinskiCube (rs 58),
   generateNautilusShell (rs 59),
   generateRibbonKnot (rs 60),
   generateDataFountain (rs 61)]

/-- The size of the shape library actually built at startup. -/
noncomputable def librarySize (env : ThreeEnv) (rs : ℕ → ℕ → ℝ)
    (gyroidFuel : ℕ) : ℕ :=
  (shapesList env rs gyroidFuel).length

/-- A trivial external environment (empty vertex buffers, identity-like
rotations), used to instantiate closed statements about the library. -/
noncomputable def trivEnv : ThreeEnv :=
  { icosahedron07 := []
    torus01 := []
    box08 := []
    dodecahedron08 := []
    torusKnot := []
    sphere07 := []
    capsule := []
    octahedron := []
    icoLayer := fun _ => []
    applyEuler := fun _ _ v => v
    applyAxisAngle := fun v _ _ => v }

/-- A trivial per-entry random-stream family for closed statements about the
library. -/
noncomputable def trivStreams : ℕ → ℕ → ℝ := fun _ _ => 0

/-! ### Concrete tracker inputs used in closed statements -/

/-- A detected fisted hand as the tracker delivers it (`isActive` always true,
`shapeIndex` always 0 from `HandTracker`). -/
def fistHand : HandState ℚ :=
  { isActive := true, isFist := true, position := ⟨0, 0, 0⟩,
    velocity := ⟨0, 0⟩, shapeIndex := 0 }

/-- A detected open hand as the tracker delivers it. -/
def openHand : HandState ℚ :=
  { isActive := true, isFist := false, position := ⟨0, 0, 0⟩,
    velocity := ⟨0, 0⟩, shapeIndex := 0 }

/-- 125 deliveries alternating fist/open on the left hand (right absent):
ticks 0, 2, ..., 124 are open→fist transitions, 63 in total. -/
def manyFistInputs : List TrackerInput :=
  (List.range 125).map
    (fun i => (some (if i % 2 = 0 then fistHand else openHand), none))

/-- Three left-hand deliveries: fist (transition 1), open, fist
(transition 2, assigning shapeIndex 1). -/
def threeFistInputs : List TrackerInput :=
  [(some fistHand, none), (some openHand, none), (some fistHand, none)]

/-- The same three deliveries followed by one delivery on which the left hand
is absent. -/
def thenAbsentInputs : List TrackerInput :=
  threeFistInputs ++ [(none, none)]

/-- A tracker delivery on which a hand contributes no activity: the hand is
absent, or delivered inactive. -/
def handOff : Option (HandState ℚ) → Prop
  | none => True
  | some c => c.isActive = false

/-- A delivery with no active hand on either side. -/
def inactiveInput (x : TrackerInput) : Prop := handOff x.1 ∧ handOff x.2

/-! ### Concrete scene-level states used in closed statements -/

/-- An active open hand at `(3, 4, 0)` (scene model). -/
def openHandAt34 : HandState ℝ :=
  { isActive := true, isFist := false, position := ⟨3, 4, 0⟩,
    velocity := ⟨0, 0⟩, shapeIndex := 0 }

/-- An active open hand at the origin (scene model). -/
def openHandAt0 : HandState ℝ :=
  { isActive := true, isFist := false, position := ⟨0, 0, 0⟩,
    velocity := ⟨0, 0⟩, shapeIndex := 0 }

/-- An active fisted hand at the origin (scene model). -/
def fistHandAt0 : HandState ℝ :=
  { isActive := true, isFist := true, position := ⟨0, 0, 0⟩,
    velocity := ⟨0, 0⟩, shapeIndex := 0 }

/-- An undetected hand whose last tracked position was `(1, 0, 0)` (scene
model). -/
def inactiveHandAt1 : HandState ℝ :=
  { isActive := false, isFist := false, position := ⟨1, 0, 0⟩,
    velocity := ⟨0, 0⟩, shapeIndex := 0 }

/-- A concrete render state: zeroed particles, anchor at the origin, shimmer
fully charged. -/
def renderState0 : RenderState :=
  { pos := zeroBuffer, anchor := ⟨0, 0, 0⟩, rotY := 0, visible := true,
    shimmer := 1, prevIsFist := false, size := 0.014, opacity := 0.85 }

/-! ## Theorems

### Buffer sizes of the generators -/

@[simp] theorem size_getMeshPoints (posArr : List ℝ) :
    (getMeshPoints posArr).size = 12000 := by simp [getMeshPoints]

@[simp] theorem size_generateCrystalline (ico : ℕ → List ℝ) :
    (generateCrystalline ico).size = 12000 := by simp [generateCrystalline]

@[simp] theorem size_generateOrbitingRings (ae : ℝ → ℝ → ℝ × ℝ × ℝ → ℝ × ℝ × ℝ) :
    (generateOrbitingRings ae).size = 12000 := by simp [generateOrbitingRings]

@[simp] theorem size_generateDoubleHelix : generateDoubleHelix.size = 12000 := by
  simp [generateDoubleHelix]

@[simp] theorem size_generateMechanical : generateMechanical.size = 12000 := by
  simp [generateMechanical]

@[simp] theorem size_generateFractalLattice (r : ℕ → ℝ) :
    (generateFractalLattice r).size = 12000 := by simp [generateFractalLattice]

@[simp] theorem size_generateVortex : generateVortex.size = 12000 := by
  simp [generateVortex]

@[simp] theorem size_generateMolecule (r : ℕ → ℝ) :
    (generateMolecule r).size = 12000 := by simp [generateMolecule]

@[simp] theorem size_generateCityscape (r : ℕ → ℝ) :
    (generateCityscape r).size = 12000 := by simp [generateCityscape]

@[simp] theorem size_generateSacredGeometry : generateSacredGeometry.size = 12000 := by
  simp [generateSacredGeometry]

@[simp] theorem size_generateTesseract : generateTesseract.size = 12000 := by
  simp [generateTesseract]

@[simp] theorem size_generateNeuralNetwork (r : ℕ → ℝ) :
    (generateNeuralNetwork r).size = 12000 := by simp [generateNeuralNetwork]

@[simp] theorem size_generateDigitalSingularity (r : ℕ → ℝ) :
    (generateDigitalSingularity r).size = 12000 := by simp [generateDigitalSingularity]

@[simp] theorem size_generateCyberEye (r : ℕ → ℝ) :
    (generateCyberEye r).size = 12000 := by simp [generateCyberEye]

@[simp] theorem size_generateCrystallineFlower :
    generateCrystallineFlower.size = 12000 := by simp [generateCrystallineFlower]

@[simp] theorem size_generateInterferenceWave (r : ℕ → ℝ) :
    (generateInterferenceWave r).size = 12000 := by simp [generateInterferenceWave]

@[simp] theorem size_generateVoxelMonolith (r : ℕ → ℝ) :
    (generateVoxelMonolith r).size = 12000 := by simp [generateVoxelMonolith]

@[simp] theorem size_generateRibbonSpiral (r : ℕ → ℝ) :
    (generateRibbonSpiral r).size = 12000 := by simp [generateRibbonSpiral]

@[simp] theorem size_generateGeometricGeode (r : ℕ → ℝ) :
    (generateGeometricGeode r).size = 12000 := by simp [generateGeometricGeode]

@[simp] theorem size_generateQuantumEntanglement (r : ℕ → ℝ) :
    (generateQuantumEntanglement r).size = 12000 := by simp [generateQuantumEntanglement]

@[simp] theorem size_generateStarGate (r : ℕ → ℝ) :
    (generateStarGate r).size = 12000 := by simp [generateStarGate]

@[simp] theorem size_generatePyramidFractal (r : ℕ → ℝ) :
    (generatePyramidFractal r).size = 12000 := by simp [generatePyramidFractal]

@[simp] theorem size_generateDNALattice (r : ℕ → ℝ) :
    (generateDNALattice r).size = 12000 := by simp [generateDNALattice]

@[simp] theorem size_generateSupernova (r : ℕ → ℝ) :
    (generateSupernova r).size = 12000 := by simp [generateSupernova]

@[simp] theorem size_generateHyperCore (r : ℕ → ℝ) :
    (generateHyperCore r).size = 12000 := by simp [generateHyperCore]

@[simp] theorem size_generateSpikyUrchin (r : ℕ → ℝ) :
    (generateSpikyUrchin r).size = 12000 := by simp [generateSpikyUrchin]

@[simp] theorem size_generateDataStream (r : ℕ → ℝ) :
    (generateDataStream r).size = 12000 := by simp [generateDataStream]

@[simp] theorem size_generateWarpTunnel (r : ℕ → ℝ) :
    (generateWarpTunnel r).size = 12000 := by simp [generateWarpTunnel]

@[simp] theorem size_generateFloatingIslands (r : ℕ → ℝ) :
    (generateFloatingIslands r).size = 12000 := by simp [generateFloatingIslands]

@[simp] theorem size_generateAuraShield (r : ℕ → ℝ) :
    (generateAuraShield r).size = 12000 := by simp [generateAuraShield]

@[simp] theorem size_generateCyberDisc (r : ℕ → ℝ) :
    (generateCyberDisc r).size = 12000 := by simp [generateCyberDisc]

@[simp] theorem size_generateMobiusStrip (r : ℕ → ℝ) :
    (generateMobiusStrip r).size = 12000 := by simp [generateMobiusStrip]

@[simp] theorem size_generateVoronoiShell (r : ℕ → ℝ) :
    (generateVoronoiShell r).size = 12000 := by simp [generateVoronoiShell]

@[simp] theorem size_generateBinaryPillar (r : ℕ → ℝ) :
    (generateBinaryPillar r).size = 12000 := by simp [generateBinaryPillar]

@[simp] theorem size_generateMagneticField : generateMagneticField.size = 12000 := by
  simp [generateMagneticField]

@[simp] theorem size_generateHelixSphere : generateHelixSphere.size = 12000 := by
  simp [generateHelixSphere]

@[simp] theorem size_generatePulsarCore (r : ℕ → ℝ) :
    (generatePulsarCore r).size = 12000 := by simp [generatePulsarCore]

@[simp] theorem size_generateDigitalWeb (r : ℕ → ℝ) :
    (generateDigitalWeb r).size = 12000 := by simp [generateDigitalWeb]

@[simp] theorem size_generateExplodedCube (r : ℕ → ℝ) :
    (generateExplodedCube r).size = 12000 := by simp [generateExplodedCube]

@[simp] theorem size_generateCloverKnot : generateCloverKnot.size = 12000 := by
  simp [generateCloverKnot]

@[simp] theorem size_generateKleinBottle (r : ℕ → ℝ) :
    (generateKleinBottle r).size = 12000 := by simp [generateKleinBottle]

@[simp] theorem size_generateHyperboloid (r : ℕ → ℝ) :
    (generateHyperboloid r).size = 12000 := by simp [generateHyperboloid]

@[simp] theorem size_generateFractalTree
    (rot : ℝ × ℝ × ℝ → ℝ × ℝ × ℝ → ℝ → ℝ × ℝ × ℝ) (rB rP : ℕ → ℝ) :
    (generateFractalTree rot rB rP).size = 12000 := by simp [generateFractalTree]

@[simp] theorem size_generateGalacticSpiral (r : ℕ → ℝ) :
    (generateGalacticSpiral r).size = 12000 := by simp [generateGalacticSpiral]

@[simp] theorem size_generateCalyx : generateCalyx.size = 12000 := by
  simp [generateCalyx]

@[simp] theorem size_generateNautilusShell (r : ℕ → ℝ) :
    (generateNautilusShell r).size = 12000 := by simp [generateNautilusShell]

@[simp] theorem size_generateRibbonKnot (r : ℕ → ℝ) :
    (generateRibbonKnot r).size = 12000 := by simp [generateRibbonKnot]

@[simp] theorem size_generateDataFountain (r : ℕ → ℝ) :
    (generateDataFountain r).size = 12000 := by simp [generateDataFountain]

theorem size_gyroidLoop (r : ℕ → ℝ) :
    ∀ (fuel count k : ℕ) (acc b : Array ℝ),
      gyroidLoop r fuel count k acc = some b → b.size = acc.size := by
  intro fuel
  induction fuel with
  | zero => intro count k acc b h; exact absurd h (by simp [gyroidLoop])
  | succ n ih =>
      intro count k acc b h
      unfold gyroidLoop at h
      split at h
      · exact (Option.some_injective _ h).symm ▸ rfl
      · dsimp only at h
        split at h
        · exact (ih _ _ _ _ h).trans (size_writeTriple _ _ _)
        · exact ih _ _ _ _ h

theorem size_generateGyroid (fuel : ℕ) (r : ℕ → ℝ) (b : Array ℝ)
    (h : generateGyroid fuel r = some b) : b.size = 12000 :=
  (size_gyroidLoop r fuel 0 0 zeroBuffer b h).trans size_zeroBuffer

@[simp] theorem size_generateGyroidTotal (fuel : ℕ) (r : ℕ → ℝ) :
    (generateGyroidTotal fuel r).size = 12000 := by
  unfold generateGyroidTotal
  cases h : generateGyroid fuel r with
  | none => simpa using size_zeroBuffer
  | some b => simpa using size_generateGyroid fuel r b h

theorem size_sierpinskiFold (r : ℕ → ℝ) :
    ∀ (l : List ℕ) (c : ℝ × ℝ × ℝ) (a : Array ℝ),
      ((l.foldl (sierpinskiStep r) (c, a)).2).size = a.size := by
  intro l
  induction l with
  | nil => intros; rfl
  | cons x xs ih =>
      intro c a
      rw [List.foldl_cons]
      exact (ih _ _).trans (size_writeTriple _ _ _)

@[simp] theorem size_generateSierpinskiCube (r : ℕ → ℝ) :
    (generateSierpinskiCube r).size = 12000 := by
  unfold generateSierpinskiCube
  rw [size_sierpinskiFold, size_zeroBuffer]

@[simp] theorem size_generateLORDx (r : ℕ → ℝ) :
    (generateLORDx r).size = 12000 := by simp [generateLORDx]

set_option maxRecDepth 6000 in
/-- C8 (amended): every generator in the library built at startup returns a
buffer of exactly `PARTICLE_COUNT * 3 = 12000` numeric values for every
random draw, as does the glyph generator `generateLORDx`; `generateGyroid`
returns such a buffer whenever its rejection-sampling loop finishes — but not
for every possible draw (see the counterexample: some streams make the loop
spin forever). -/
theorem C8_generator_buffer_sizes :
    PARTICLE_COUNT * 3 = 12000 ∧
    (∀ (env : ThreeEnv) (rs : ℕ → ℕ → ℝ) (gyroidFuel : ℕ) (s : Array ℝ),
        s ∈ shapesList env rs gyroidFuel → s.size = 12000) ∧
    (∀ r : ℕ → ℝ, (generateLORDx r).size = 12000) ∧
    (∀ (fuel : ℕ) (r : ℕ → ℝ) (b : Array ℝ),
        generateGyroid fuel r = some b → b.size = 12000) := by
  refine ⟨rfl, ?_, ?_, ?_⟩
  · intro env rs gyroidFuel s hs
    have hF : (shapesList env rs gyroidFuel).Forall (fun s => s.size = 12000) := by
      rw [shapesList]
      exact ⟨size_getMeshPoints _,
        size_getMeshPoints _,
        size_getMeshPoints _,
        size_getMeshPoints _,
        size_generateCrystalline _,
        size_generateOrbitingRings _,
        size_getMeshPoints _,
        size_generateDoubleHelix,
        size_generateMechanical,
        size_generateFractalLattice _,
        size_generateSacredGeometry,
        size_getMeshPoints _,
        size_generateVortex,
        size_generateMolecule _,
        size_generateCityscape _,
        size_getMeshPoints _,
        size_getMeshPoints _,
        size_generateTesseract,
        size_generateNeuralNetwork _,
        size_generateDigitalSingularity _,
        size_generateCyberEye _,
        size_generateCrystallineFlower,
        size_generateInterferenceWave _,
        size_generateVoxelMonolith _,
        size_generateRibbonSpiral _,
        size_generateGeometricGeode _,
        size_generateQuantumEntanglement _,
        size_generateStarGate _,
        size_generatePyramidFractal _,
        size_generateDNALattice _,
        size_generateSupernova _,
        size_generateHyperCore _,
        size_generateSpikyUrchin _,
        size_generateDataStream _,
        size_generateWarpTunnel _,
        size_generateFloatingIslands _,
        size_generateAuraShield _,
        size_generateCrystalline _,
        size_generateOrbitingRings _,
        size_generateDoubleHelix,
        size_generateMechanical,
        size_generateFractalLattice _,
        size_generateCyberDisc _,
        size_generateMobiusStrip _,
        size_generateVoronoiShell _,
        size_generateBinaryPillar _,
        size_generateMagneticField,
        size_generateHelixSphere,
        size_generatePulsarCore _,
        size_generateDigitalWeb _,
        size_generateExplodedCube _,
        size_generateCloverKnot,
        size_generateKleinBottle _,
        size_generateHyperboloid _,
        size_generateFractalTree _ _ _,
        size_generateGalacticSpiral _,
        size_generateCalyx,
        size_generateGyroidTotal _ _,
        size_generateSierpinskiCube _,
        size_generateNautilusShell _,
        size_generateRibbonKnot _,
        size_generateDataFountain _⟩
    exact List.forall_iff_forall_mem.1 hF s hs
  · intro r; simp
  · exact size_generateGyroid

/-- The candidate drawn from the constant stream `0.875` is always rejected:
its coordinates are all `3π/4`, where the gyroid level function has value
`-3/2`, far outside the `|val| < 0.1` acceptance band. -/
theorem gyroidReject_const :
    ¬ gyroidAccept (((0.875 : ℝ) - 0.5) * Real.pi * 2)
      (((0.875 : ℝ) - 0.5) * Real.pi * 2) (((0.875 : ℝ) - 0.5) * Real.pi * 2) := by
  have hx : ((0.875 : ℝ) - 0.5) * Real.pi * 2 = Real.pi - Real.pi / 4 := by ring
  have hsin : Real.sin (Real.pi - Real.pi / 4) = Real.sqrt 2 / 2 := by
    rw [Real.sin_pi_sub, Real.sin_pi_div_four]
  have hcos : Real.cos (Real.pi - Real.pi / 4) = -(Real.sqrt 2 / 2) := by
    rw [Real.cos_pi_sub, Real.cos_pi_div_four]
  have h2 : Real.sqrt 2 * Real.sqrt 2 = 2 := Real.mul_self_sqrt (by norm_num)
  intro hacc
  rw [gyroidAccept, hx, hsin, hcos, abs_lt] at hacc
  obtain ⟨h1, _⟩ := hacc
  nlinarith [h2]

/-- With every draw equal to `0.875`, the gyroid rejection loop never accepts
a point, so it never terminates, whatever the fuel. -/
theorem gyroidLoop_const_spin :
    ∀ (fuel k : ℕ) (acc : Array ℝ),
      gyroidLoop (fun _ => (0.875 : ℝ)) fuel 0 k acc = none := by
  intro fuel
  induction fuel with
  | zero => intros; rfl
  | succ n ih =>
      intro k acc
      unfold gyroidLoop
      rw [if_neg (by decide : ¬ PARTICLE_COUNT ≤ 0)]
      dsimp only
      rw [if_neg gyroidReject_const]
      exact ih _ _

/-- C8 counterexample: on the random stream whose every draw is `0.875`,
`generateGyroid`'s rejection loop runs forever — the generator does not
return a buffer at all, let alone one of 12000 values, refuting "for every
possible random draw". -/
theorem C8_counterexample : gyroidNeverReturns (fun _ => (0.875 : ℝ)) := by
  intro fuel
  exact gyroidLoop_const_spin fuel 0 zeroBuffer

/-- Witness for C8: the library's first entry, on the concrete trivial
environment, has exactly 12000 values, as does the glyph buffer on the
all-zero stream. -/
theorem C8_generator_buffer_sizes_witness :
    (getMeshPoints trivEnv.icosahedron07).size = 12000 ∧
    (generateLORDx (fun _ => 0)).size = 12000 :=
  ⟨C8_generator_buffer_sizes.2.1 trivEnv trivStreams 0 _ (List.mem_cons_self _ _),
   C8_generator_buffer_sizes.2.2.1 (fun _ => 0)⟩

/-! ### The gesture shape selector (C1, C2, C4) -/

/-- Unfolding `runUpdates` over one delivery. -/
theorem runUpdates_cons (x : TrackerInput) (l : List TrackerInput) (st : ℕ × AppState) :
    runUpdates (x :: l) st = runUpdates l (handleHandUpdate st.1 x.1 x.2 st.2) := rfl

/-- An absent hand is replaced wholesale by the initial hand state. -/
theorem updateHand_none (fc : ℕ) (prevHand : HandState ℚ) :
    updateHand fc none prevHand = (fc, INITIAL_HAND_STATE) := rfl

/-- On an open→fist transition the shared counter is incremented and the hand
receives `(newCount - 1) % 65`. -/
theorem updateHand_trans (fc : ℕ) (c prevHand : HandState ℚ)
    (hc : c.isFist = true) (hp : prevHand.isFist = false) :
    updateHand fc (some c) prevHand =
      (fc + 1, { c with shapeIndex := (fc + 1 - 1) % 65 }) := by
  simp [updateHand, hc, hp]

/-- On a present, non-transitioning hand the counter is untouched and the
previous `shapeIndex` is carried forward. -/
theorem updateHand_not_trans (fc : ℕ) (c prevHand : HandState ℚ)
    (h : ¬(c.isFist = true ∧ prevHand.isFist = false)) :
    updateHand fc (some c) prevHand =
      (fc, { c with shapeIndex := prevHand.shapeIndex }) := by
  have hb : (c.isFist && !prevHand.isFist) = false := by
    cases hc : c.isFist <;> cases hp : prevHand.isFist <;> simp_all
  simp [updateHand, hb]

/-- The counter returned by one full delivery is the old counter plus one per
transitioning hand (left examined before right). -/
theorem handleHandUpdate_counter (fc : ℕ) (l r : Option (HandState ℚ))
    (st : AppState) :
    (handleHandUpdate fc l r st).1 =
      fc + (cond (handTrans l st.leftHand) 1 0) +
        (cond (handTrans r st.rightHand) 1 0) := by
  cases l with
  | none =>
      cases r with
      | none => simp [handleHandUpdate, updateHand, handTrans]
      | some cr =>
          cases hcr : cr.isFist <;> cases hpr : st.rightHand.isFist <;>
            simp [handleHandUpdate, updateHand, handTrans, hcr, hpr]
  | some cl =>
      cases r with
      | none =>
          cases hcl : cl.isFist <;> cases hpl : st.leftHand.isFist <;>
            simp [handleHandUpdate, updateHand, handTrans, hcl, hpl]
      | some cr =>
          cases hcl : cl.isFist <;> cases hpl : st.leftHand.isFist <;>
            cases hcr : cr.isFist <;> cases hpr : st.rightHand.isFist <;>
              simp [handleHandUpdate, updateHand, handTrans, hcl, hpl, hcr, hpr]

/-- The hands produced by one full delivery are exactly the two `updateHand`
results, with the right hand seeing the counter left behind by the left. -/
theorem handleHandUpdate_hands (fc : ℕ) (l r : Option (HandState ℚ))
    (st : AppState) :
    (handleHandUpdate fc l r st).2.leftHand = (updateHand fc l st.leftHand).2 ∧
    (handleHandUpdate fc l r st).2.rightHand =
      (updateHand (updateHand fc l st.leftHand).1 r st.rightHand).2 := by
  constructor <;> rfl

/-- The `j`-th (0-indexed) `shapeIndex` value assigned along any run that
starts with fist counter `fc` is `(fc + j) % 65`. -/
theorem runAssigned_getD :
    ∀ (inputs : List TrackerInput) (fc : ℕ) (st : AppState) (j : ℕ),
      j < (runAssigned inputs fc st).length →
      (runAssigned inputs fc st).getD j 0 = (fc + j) % 65 := by
  intro inputs
  induction inputs with
  | nil => intro fc st j h; simp [runAssigned] at h
  | cons lr rest ih =>
      intro fc st j h
      rcases hL : handTrans lr.1 st.leftHand <;>
        rcases hR : handTrans lr.2 st.rightHand
      · simp only [runAssigned, hL, hR, if_false, Bool.false_eq_true,
          cond_false, Nat.add_zero, List.nil_append] at h ⊢
        exact ih fc _ j h
      · simp only [runAssigned, hL, hR, if_false, if_true, Bool.false_eq_true,
          cond_false, cond_true, Nat.add_zero, Nat.add_sub_cancel,
          List.nil_append, List.singleton_append, List.length_cons] at h ⊢
        match j with
        | 0 => simp
        | j + 1 =>
            rw [List.getD_cons_succ, ih (fc + 1) _ j (by omega)]
            congr 1
            omega
      · simp only [runAssigned, hL, hR, if_false, if_true, Bool.false_eq_true,
          cond_false, cond_true, Nat.add_zero, Nat.add_sub_cancel,
          List.nil_append, List.cons_append, List.singleton_append,
          List.length_cons] at h ⊢
        match j with
        | 0 => simp
        | j + 1 =>
            rw [List.getD_cons_succ, ih (fc + 1) _ j (by omega)]
            congr 1
            omega
      · simp only [runAssigned, hL, hR, if_true, cond_true,
          Nat.add_sub_cancel, List.cons_append, List.nil_append,
          List.singleton_append, List.length_cons] at h ⊢
        match j with
        | 0 => simp
        | 1 => simp
        | j + 2 =>
            rw [List.getD_cons_succ, List.getD_cons_succ,
              ih (fc + 1 + 1) _ j (by omega)]
            congr 1
            omega

/-- The library built at startup has exactly 62 entries. -/
theorem librarySize_eq (env : ThreeEnv) (rs : ℕ → ℕ → ℝ) (fuel : ℕ) :
    librarySize env rs fuel = 62 := rfl

/-- C1 (amended): the k-th open→fist transition of a session (1-indexed,
counted across both hands, left before right within a delivery) assigns the
transitioning hand `shapeIndex = (k - 1) % 65` — the modulus is the selector's
hardcoded constant 65, not the built library's size 62; on a transition the
shared counter becomes `k`; and a present hand that is not transitioning
keeps its previous `shapeIndex`, with the counter untouched. -/
theorem C1_selector_round_robin :
    (∀ (inputs : List TrackerInput) (k : ℕ),
        1 ≤ k → k ≤ (runAssigned inputs 0 initSession.2).length →
        (runAssigned inputs 0 initSession.2).getD (k - 1) 0 = (k - 1) % 65) ∧
    (∀ (fc : ℕ) (c prevHand : HandState ℚ),
        c.isFist = true → prevHand.isFist = false →
        (updateHand fc (some c) prevHand).2.shapeIndex = (fc + 1 - 1) % 65 ∧
        (updateHand fc (some c) prevHand).1 = fc + 1) ∧
    (∀ (fc : ℕ) (c prevHand : HandState ℚ),
        ¬(c.isFist = true ∧ prevHand.isFist = false) →
        (updateHand fc (some c) prevHand).2.shapeIndex = prevHand.shapeIndex ∧
        (updateHand fc (some c) prevHand).1 = fc) := by
  refine ⟨?_, ?_, ?_⟩
  · intro inputs k hk1 hk2
    have h := runAssigned_getD inputs 0 initSession.2 (k - 1) (by omega)
    simpa using h
  · intro fc c prevHand hc hp
    rw [updateHand_trans fc c prevHand hc hp]
    exact ⟨rfl, rfl⟩
  · intro fc c prevHand h
    rw [updateHand_not_trans fc c prevHand h]
    exact ⟨rfl, rfl⟩

/-- Witness for C1: on the concrete three-delivery run (fist, open, fist) the
second transition assigns `shapeIndex 1`, and the two single-step parts at
concrete hands. -/
theorem C1_selector_round_robin_witness :
    (runAssigned threeFistInputs 0 initSession.2).getD (2 - 1) 0 = (2 - 1) % 65 ∧
    (updateHand 5 (some fistHand) openHand).2.shapeIndex = (5 + 1 - 1) % 65 ∧
    (updateHand 5 (some openHand) fistHand).2.shapeIndex = fistHand.shapeIndex :=
  ⟨C1_selector_round_robin.1 threeFistInputs 2 (by decide) (by decide),
   (C1_selector_round_robin.2.1 5 fistHand openHand (by decide) (by decide)).1,
   (C1_selector_round_robin.2.2 5 openHand fistHand (by decide)).1⟩

set_option maxRecDepth 40000 in
/-- C1 counterexample: with `librarySize` the size of the library actually
built (62), the claimed formula fails at the 63rd transition: the selector
assigns `shapeIndex 62`, while `(63 - 1) % librarySize = 0`. -/
theorem C1_counterexample :
    (runAssigned manyFistInputs 0 initSession.2).getD (63 - 1) 0 = 62 ∧
    (63 - 1) % librarySize trivEnv trivStreams 0 = 0 ∧ (62 : ℕ) ≠ 0 := by
  refine ⟨by decide, ?_, by decide⟩
  rw [librarySize_eq]

/-- C2 (amended): on a delivery where a hand is absent, the hand's whole
state — `shapeIndex` included — is reset to `INITIAL_HAND_STATE` (so
`shapeIndex` becomes 0 rather than being preserved); only while the hand
stays present is `shapeIndex` carried forward between transitions. -/
theorem C2_absent_hand_resets :
    (∀ (fc : ℕ) (prevHand : HandState ℚ),
        updateHand fc none prevHand = (fc, INITIAL_HAND_STATE) ∧
        (updateHand fc none prevHand).2.shapeIndex = 0) ∧
    (∀ (fc : ℕ) (c prevHand : HandState ℚ),
        ¬(c.isFist = true ∧ prevHand.isFist = false) →
        (updateHand fc (some c) prevHand).2.shapeIndex = prevHand.shapeIndex) := by
  constructor
  · intro fc prevHand
    exact ⟨rfl, rfl⟩
  · intro fc c prevHand h
    rw [updateHand_not_trans fc c prevHand h]

/-- Witness for C2: the two parts at concrete hands. -/
theorem C2_absent_hand_resets_witness :
    (updateHand 3 none fistHand).2.shapeIndex = 0 ∧
    (updateHand 3 (some openHand) fistHand).2.shapeIndex = fistHand.shapeIndex :=
  ⟨(C2_absent_hand_resets.1 3 fistHand).2,
   C2_absent_hand_resets.2 3 openHand fistHand (by decide)⟩

/-- C2 counterexample: a left hand that has fisted twice carries
`shapeIndex 1`; one absent delivery later its `shapeIndex` is 0, not the
preserved 1. -/
theorem C2_counterexample :
    (runUpdates threeFistInputs initSession).2.leftHand.shapeIndex = 1 ∧
    (runUpdates thenAbsentInputs initSession).2.leftHand.shapeIndex = 0 ∧
    (0 : ℕ) ≠ 1 := by
  refine ⟨by decide, by decide, by decide⟩

/-- Every `updateHand` result keeps `shapeIndex` below the selector modulus,
provided the previous value was. -/
theorem updateHand_shapeIndex_lt (fc : ℕ) (current : Option (HandState ℚ))
    (prevHand : HandState ℚ) (h : prevHand.shapeIndex < 65) :
    (updateHand fc current prevHand).2.shapeIndex < 65 := by
  cases current with
  | none => simp [updateHand, INITIAL_HAND_STATE]
  | some c =>
      cases hb : (c.isFist && !prevHand.isFist)
      · simpa [updateHand, hb] using h
      · simp only [updateHand, hb, if_true]
        omega

/-- The `shapeIndex` bound is an invariant of whole runs. -/
theorem runUpdates_shapeIndex_lt :
    ∀ (inputs : List TrackerInput) (fc : ℕ) (st : AppState),
      st.leftHand.shapeIndex < 65 → st.rightHand.shapeIndex < 65 →
      (runUpdates inputs (fc, st)).2.leftHand.shapeIndex < 65 ∧
      (runUpdates inputs (fc, st)).2.rightHand.shapeIndex < 65 := by
  intro inputs
  induction inputs with
  | nil => intro fc st h1 h2; exact ⟨h1, h2⟩
  | cons x l ih =>
      intro fc st h1 h2
      rw [runUpdates_cons]
      have e := handleHandUpdate_hands fc x.1 x.2 st
      refine ih (handleHandUpdate fc x.1 x.2 st).1 (handleHandUpdate fc x.1 x.2 st).2 ?_ ?_
      · rw [e.1]
        exact updateHand_shapeIndex_lt fc x.1 st.leftHand h1
      · rw [e.2]
        exact updateHand_shapeIndex_lt _ x.2 st.rightHand h2

/-- C4 (amended): every `shapeIndex` the selector ever produces lies in
`[0, 65)` — 65 being the hardcoded selector modulus, which does **not** equal
the built library's size: the library actually built has 62 entries.  The
engine's lookup `shapes[shapeIndex % shapes.length]` is nevertheless in
bounds (`isSome`) for every non-negative index, because it re-wraps modulo
the true length 62. -/
theorem C4_defensive_wrapping :
    (∀ inputs : List TrackerInput,
        (runUpdates inputs initSession).2.leftHand.shapeIndex < 65 ∧
        (runUpdates inputs initSession).2.rightHand.shapeIndex < 65) ∧
    (∀ (env : ThreeEnv) (rs : ℕ → ℕ → ℝ) (fuel : ℕ),
        librarySize env rs fuel = 62 ∧ librarySize env rs fuel ≠ 65) ∧
    (∀ (env : ThreeEnv) (rs : ℕ → ℕ → ℝ) (fuel : ℕ) (idx : ℕ),
        ((shapesList env rs fuel)[idx % (shapesList env rs fuel).length]?).isSome
          = true) := by
  refine ⟨?_, ?_, ?_⟩
  · intro inputs
    exact runUpdates_shapeIndex_lt inputs 0 initSession.2 (by decide) (by decide)
  · intro env rs fuel
    exact ⟨librarySize_eq env rs fuel, by rw [librarySize_eq]; omega⟩
  · intro env rs fuel idx
    have hlen : (shapesList env rs fuel).length = 62 := librarySize_eq env rs fuel
    have hlt : idx % (shapesList env rs fuel).length <
        (shapesList env rs fuel).length := by
      rw [hlen]
      exact Nat.mod_lt _ (by norm_num)
    rw [List.getElem?_eq_getElem hlt]
    rfl

set_option maxRecDepth 40000 in
/-- C4 counterexample: after 63 fist-close transitions the left hand holds
`shapeIndex 62`, which is not in `[0, librarySize)` for the library actually
built (62 entries) — the selector modulus 65 and the library size disagree. -/
theorem C4_counterexample :
    (runUpdates manyFistInputs initSession).2.leftHand.shapeIndex = 62 ∧
    ¬ (runUpdates manyFistInputs initSession).2.leftHand.shapeIndex <
        librarySize trivEnv trivStreams 0 := by
  have h : (runUpdates manyFistInputs initSession).2.leftHand.shapeIndex = 62 := by
    decide
  refine ⟨h, ?_⟩
  rw [h, librarySize_eq]
  omega

/-! ### The orbit smoother (C7) -/

/-- `updateHand` never changes a present hand's `isActive` flag. -/
theorem updateHand_isActive_some (fc : ℕ) (c prevHand : HandState ℚ) :
    (updateHand fc (some c) prevHand).2.isActive = c.isActive := by
  cases hb : (c.isFist && !prevHand.isFist) <;> simp [updateHand, hb]

/-- An absent hand comes out inactive. -/
theorem updateHand_isActive_none (fc : ℕ) (prevHand : HandState ℚ) :
    (updateHand fc none prevHand).2.isActive = false := rfl

/-- With no activity on either side of a delivery, the orbit decays by the
factor 0.96. -/
theorem handleHandUpdate_orbit_decay (fc : ℕ) (l r : Option (HandState ℚ))
    (st : AppState) (hl : handOff l) (hr : handOff r) :
    (handleHandUpdate fc l r st).2.cameraOrbit = st.cameraOrbit * 0.96 := by
  have hL : (updateHand fc l st.leftHand).2.isActive = false := by
    cases l with
    | none => rfl
    | some c => rw [updateHand_isActive_some]; exact hl
  have hR : (updateHand (updateHand fc l st.leftHand).1 r st.rightHand).2.isActive
      = false := by
    cases r with
    | none => rfl
    | some c => rw [updateHand_isActive_some]; exact hr
  simp [handleHandUpdate, hL, hR]

/-- Orbit decay over a whole inactive stretch: `orbit_T = orbit_0 * 0.96 ^ T`. -/
theorem runUpdates_orbit_decay :
    ∀ (inputs : List TrackerInput) (fc : ℕ) (st : AppState),
      (∀ x ∈ inputs, inactiveInput x) →
      (runUpdates inputs (fc, st)).2.cameraOrbit =
        st.cameraOrbit * 0.96 ^ inputs.length := by
  intro inputs
  induction inputs with
  | nil => intro fc st _; simp [runUpdates]
  | cons x l ih =>
      intro fc st hq
      rw [runUpdates_cons]
      have hx := hq x (List.mem_cons_self x l)
      have h1 :=
        ih (handleHandUpdate fc x.1 x.2 st).1 (handleHandUpdate fc x.1 x.2 st).2
          (fun y hy => hq y (List.mem_cons_of_mem x hy))
      rw [h1, handleHandUpdate_orbit_decay fc x.1 x.2 st hx.1 hx.2,
        List.length_cons]
      ring

/-- C7: over `T` consecutive deliveries with no active hand the orbit scalar
is multiplied by exactly `0.96 ^ T`; a nonzero orbit never becomes exactly
zero this way, and each decay step strictly shrinks its magnitude; and on a
delivery leaving at least one hand active, the new orbit is
`orbit * 0.94 + (avg * 0.4) * 0.06` with `avg` the average of the active
hands' x-positions. -/
theorem C7_orbit_dynamics :
    (∀ (inputs : List TrackerInput) (fc : ℕ) (st : AppState),
        (∀ x ∈ inputs, inactiveInput x) →
        (runUpdates inputs (fc, st)).2.cameraOrbit =
          st.cameraOrbit * 0.96 ^ inputs.length) ∧
    (∀ q : ℚ, q ≠ 0 → ∀ T : ℕ, q * 0.96 ^ T ≠ 0) ∧
    (∀ q : ℚ, q ≠ 0 → |q * 0.96| < |q|) ∧
    (∀ (fc : ℕ) (l r : Option (HandState ℚ)) (st res : AppState),
        res = (handleHandUpdate fc l r st).2 →
        (res.leftHand.isActive = true ∨ res.rightHand.isActive = true) →
        res.cameraOrbit =
          st.cameraOrbit * 0.94 +
            (((if res.leftHand.isActive then res.leftHand.position.x else 0) +
                (if res.rightHand.isActive then res.rightHand.position.x else 0)) /
                ((if res.leftHand.isActive then (1 : ℚ) else 0) +
                  (if res.rightHand.isActive then (1 : ℚ) else 0)) * 0.4) * 0.06) := by
  refine ⟨runUpdates_orbit_decay, ?_, ?_, ?_⟩
  · intro q hq T
    exact mul_ne_zero hq (pow_ne_zero T (by norm_num))
  · intro q hq
    rw [abs_mul]
    have h0 : 0 < |q| := abs_pos.2 hq
    rw [show |(0.96 : ℚ)| = 0.96 by norm_num]
    nlinarith
  · intro fc l r st res hres hact
    subst hres
    rcases hbL : (updateHand fc l st.leftHand).2.isActive <;>
      rcases hbR : (updateHand (updateHand fc l st.leftHand).1 r st.rightHand).2.isActive
    · exfalso
      rcases hact with h | h
      · rw [show (handleHandUpdate fc l r st).2.leftHand =
            (updateHand fc l st.leftHand).2 from rfl, hbL] at h
        exact Bool.false_ne_true h
      · rw [show (handleHandUpdate fc l r st).2.rightHand =
            (updateHand (updateHand fc l st.leftHand).1 r st.rightHand).2 from rfl,
          hbR] at h
        exact Bool.false_ne_true h
    all_goals
      simp only [handleHandUpdate, hbL, hbR]
      norm_num

/-- Witness for C7: one all-absent delivery decays the orbit by one factor of
0.96; the scalar parts at `q = 1`; and a delivery activating the left hand
applies the averaging formula. -/
theorem C7_orbit_dynamics_witness :
    (runUpdates [((none : Option (HandState ℚ)), (none : Option (HandState ℚ)))]
        (0, initSession.2)).2.cameraOrbit =
      initSession.2.cameraOrbit * 0.96 ^ (1 : ℕ) ∧
    (1 : ℚ) * 0.96 ^ (3 : ℕ) ≠ 0 ∧
    |(1 : ℚ) * 0.96| < |(1 : ℚ)| ∧
    (handleHandUpdate 0 (some openHand) none initSession.2).2.cameraOrbit =
      initSession.2.cameraOrbit * 0.94 +
        (((if (handleHandUpdate 0 (some openHand) none initSession.2).2.leftHand.isActive
              then (handleHandUpdate 0 (some openHand) none initSession.2).2.leftHand.position.x
              else 0) +
            (if (handleHandUpdate 0 (some openHand) none initSession.2).2.rightHand.isActive
              then (handleHandUpdate 0 (some openHand) none initSession.2).2.rightHand.position.x
              else 0)) /
            ((if (handleHandUpdate 0 (some openHand) none initSession.2).2.leftHand.isActive
                then (1 : ℚ) else 0) +
              (if (handleHandUpdate 0 (some openHand) none initSession.2).2.rightHand.isActive
                then (1 : ℚ) else 0)) * 0.4) * 0.06 :=
  ⟨C7_orbit_dynamics.1 [(none, none)] 0 initSession.2
      (fun x hx => by
        rw [List.mem_singleton] at hx
        subst hx
        exact ⟨trivial, trivial⟩),
   C7_orbit_dynamics.2.1 1 (by norm_num) 3,
   C7_orbit_dynamics.2.2.1 1 (by norm_num),
   C7_orbit_dynamics.2.2.2 0 (some openHand) none initSession.2 _ rfl
     (Or.inl (by decide))⟩

/-! ### The overlay scheduler (C5) -/

/-- The sampled wait always lies in `[15000, 45000)` when the draw lies in
`[0, 1)`. -/
theorem sampleDelay_range (v : ℝ) (h0 : 0 ≤ v) (h1 : v < 1) :
    15000 ≤ sampleDelay v ∧ sampleDelay v < 45000 := by
  unfold sampleDelay
  constructor <;> nlinarith

/-- Each window opens at least `3000 + 15000` ms after the previous window
opened. -/
theorem overlayStart_succ_ge (u : ℕ → ℝ) (hu : ∀ i, 0 ≤ u i ∧ u i < 1) (k : ℕ) :
    overlayStart u k + 3000 + 15000 ≤ overlayStart u (k + 1) := by
  have h := sampleDelay_range (u (k + 1)) (hu (k + 1)).1 (hu (k + 1)).2
  rw [overlayStart]
  linarith [h.1]

/-- Window start times are monotone. -/
theorem overlayStart_mono (u : ℕ → ℝ) (hu : ∀ i, 0 ≤ u i ∧ u i < 1)
    {j k : ℕ} (hjk : j ≤ k) : overlayStart u j ≤ overlayStart u k := by
  induction hjk with
  | refl => exact le_rfl
  | @step m _ ih =>
      have h := overlayStart_succ_ge u hu m
      linarith

/-- A later window opens only after the earlier window's 3000 ms have fully
elapsed (with at least 15000 ms to spare). -/
theorem overlayStart_gap (u : ℕ → ℝ) (hu : ∀ i, 0 ≤ u i ∧ u i < 1)
    {j k : ℕ} (hjk : j < k) :
    overlayStart u j + 3000 + 15000 ≤ overlayStart u k := by
  have h1 := overlayStart_succ_ge u hu j
  have h2 := overlayStart_mono u hu (Nat.succ_le_of_lt hjk)
  linarith

/-- C5: with every draw in `[0, 1)`: each sampled wait lies in
`[15000, 45000)`; the first window opens one sampled wait after arming, and
each subsequent wait is armed immediately at the previous window's close; the
flag is off before 15000 ms; each window `[start, start + 3000)` shows the
flag and the flag is off again at exactly `start + 3000`; and no two distinct
windows overlap. -/
theorem C5_overlay_timing (u : ℕ → ℝ) (hu : ∀ i, 0 ≤ u i ∧ u i < 1) :
    (∀ k, 15000 ≤ sampleDelay (u k) ∧ sampleDelay (u k) < 45000) ∧
    overlayStart u 0 = sampleDelay (u 0) ∧
    (∀ k, overlayStart u (k + 1) =
        overlayStart u k + 3000 + sampleDelay (u (k + 1))) ∧
    (∀ t, overlayShowing u t → 15000 ≤ t) ∧
    (∀ k t, overlayStart u k ≤ t → t < overlayStart u k + 3000 →
        overlayShowing u t) ∧
    (∀ k, ¬ overlayShowing u (overlayStart u k + 3000)) ∧
    (∀ t j k, overlayStart u j ≤ t → t < overlayStart u j + 3000 →
        overlayStart u k ≤ t → t < overlayStart u k + 3000 → j = k) := by
  refine ⟨fun k => sampleDelay_range (u k) (hu k).1 (hu k).2, rfl,
    fun k => rfl, ?_, ?_, ?_, ?_⟩
  · rintro t ⟨k, hk1, _⟩
    have h0 := (sampleDelay_range (u 0) (hu 0).1 (hu 0).2).1
    have hm : overlayStart u 0 ≤ overlayStart u k :=
      overlayStart_mono u hu (Nat.zero_le k)
    have : overlayStart u 0 = sampleDelay (u 0) := rfl
    linarith
  · intro k t h1 h2
    exact ⟨k, h1, h2⟩
  · rintro k ⟨j, hj1, hj2⟩
    rcases le_or_lt j k with h | h
    · have := overlayStart_mono u hu h
      linarith
    · have := overlayStart_gap u hu h
      linarith
  · intro t j k hj1 hj2 hk1 hk2
    rcases lt_trichotomy j k with h | h | h
    · have := overlayStart_gap u hu h
      linarith
    · exact h
    · have := overlayStart_gap u hu h
      linarith

/-- Witness for C5: with every draw `1/6`, the sampled wait is 20000 ms, the
flag shows at `t = 20000` and is off again at the window's close. -/
theorem C5_overlay_timing_witness :
    (15000 ≤ sampleDelay ((fun _ => (1 / 6 : ℝ)) 0) ∧
      sampleDelay ((fun _ => (1 / 6 : ℝ)) 0) < 45000) ∧
    overlayShowing (fun _ => (1 / 6 : ℝ)) 20000 ∧
    ¬ overlayShowing (fun _ => (1 / 6 : ℝ))
        (overlayStart (fun _ => (1 / 6 : ℝ)) 0 + 3000) := by
  have hu : ∀ i : ℕ, 0 ≤ (fun _ => (1 / 6 : ℝ)) i ∧ (fun _ => (1 / 6 : ℝ)) i < 1 :=
    fun _ => by norm_num
  have h0 : overlayStart (fun _ => (1 / 6 : ℝ)) 0 = 20000 := by
    show sampleDelay (1 / 6 : ℝ) = 20000
    unfold sampleDelay
    norm_num
  exact ⟨(C5_overlay_timing _ hu).1 0,
    (C5_overlay_timing _ hu).2.2.2.2.1 0 20000 (by rw [h0]) (by rw [h0]; norm_num),
    (C5_overlay_timing _ hu).2.2.2.2.2.1 0⟩

/-! ### The per-particle morph update rule (C3) -/

/-- One per-axis update leaves `(1 - s)` of the gap to the target. -/
theorem lerp1_target_sub (p t s : ℝ) : t - lerp1 p t s = (1 - s) * (t - p) := by
  unfold lerp1
  ring

/-- For `s ∈ [0, 1]` the per-axis update stays between the old position and
the target (no overshoot). -/
theorem lerp1_between (p t s : ℝ) (h0 : 0 ≤ s) (h1 : s ≤ 1) :
    min p t ≤ lerp1 p t s ∧ lerp1 p t s ≤ max p t := by
  unfold lerp1
  rcases le_total p t with h | h
  · rw [min_eq_left h, max_eq_right h]
    constructor <;> nlinarith
  · rw [min_eq_right h, max_eq_left h]
    constructor <;> nlinarith

/-- After `n` iterations, `(1 - s) ^ n` of the original gap remains, on every
axis. -/
theorem lerpIter_target_sub (p t : Vec3 ℝ) (s : ℝ) :
    ∀ n : ℕ,
      t.x - (lerpIter p t s n).x = (1 - s) ^ n * (t.x - p.x) ∧
      t.y - (lerpIter p t s n).y = (1 - s) ^ n * (t.y - p.y) ∧
      t.z - (lerpIter p t s n).z = (1 - s) ^ n * (t.z - p.z) := by
  intro n
  induction n with
  | zero => simp [lerpIter]
  | succ m ih =>
      obtain ⟨ih1, ih2, ih3⟩ := ih
      refine ⟨?_, ?_, ?_⟩
      · show t.x - lerp1 (lerpIter p t s m).x t.x s = _
        rw [lerp1_target_sub, ih1]
        ring
      · show t.y - lerp1 (lerpIter p t s m).y t.y s = _
        rw [lerp1_target_sub, ih2]
        ring
      · show t.z - lerp1 (lerpIter p t s m).z t.z s = _
        rw [lerp1_target_sub, ih3]
        ring

/-- Distances are nonnegative. -/
theorem dist3_nonneg (a b : Vec3 ℝ) : 0 ≤ dist3 a b := Real.sqrt_nonneg _

/-- C3: one application of `position += (target - position) * s` with
`s ∈ (0, 1)` scales the Euclidean distance to the target by exactly `1 - s`:
the distance strictly decreases unless it is zero, a zero distance stays
zero, the update never overshoots on any axis (the residual keeps its sign
and the new coordinate stays between the old one and the target), and
iterating from a position distinct from the target never exactly reaches it.
The engine's per-particle factors `0.07 + Math.random() * 0.08` always lie in
`(0, 1)`. -/
theorem C3_morph_convergence (p t : Vec3 ℝ) (s : ℝ) (h0 : 0 < s) (h1 : s < 1) :
    dist3 (lerpStep3 p t s) t = (1 - s) * dist3 p t ∧
    (dist3 p t ≠ 0 → dist3 (lerpStep3 p t s) t < dist3 p t) ∧
    (dist3 p t = 0 → dist3 (lerpStep3 p t s) t = 0) ∧
    (t.x - (lerpStep3 p t s).x = (1 - s) * (t.x - p.x) ∧
     t.y - (lerpStep3 p t s).y = (1 - s) * (t.y - p.y) ∧
     t.z - (lerpStep3 p t s).z = (1 - s) * (t.z - p.z)) ∧
    (min p.x t.x ≤ (lerpStep3 p t s).x ∧ (lerpStep3 p t s).x ≤ max p.x t.x ∧
     min p.y t.y ≤ (lerpStep3 p t s).y ∧ (lerpStep3 p t s).y ≤ max p.y t.y ∧
     min p.z t.z ≤ (lerpStep3 p t s).z ∧ (lerpStep3 p t s).z ≤ max p.z t.z) ∧
    (∀ n : ℕ, p ≠ t → lerpIter p t s n ≠ t) ∧
    (∀ v : ℝ, 0 ≤ v → v < 1 → 0 < lerpSpeed v ∧ lerpSpeed v < 1) := by
  have hid : dist3 (lerpStep3 p t s) t = (1 - s) * dist3 p t := by
    unfold dist3 lerpStep3 lerp1
    have he : (p.x + (t.x - p.x) * s - t.x) ^ 2 + (p.y + (t.y - p.y) * s - t.y) ^ 2 +
        (p.z + (t.z - p.z) * s - t.z) ^ 2 =
        (1 - s) ^ 2 * ((p.x - t.x) ^ 2 + (p.y - t.y) ^ 2 + (p.z - t.z) ^ 2) := by
      ring
    rw [he, Real.sqrt_mul (sq_nonneg (1 - s)), Real.sqrt_sq (by linarith)]
  refine ⟨hid, ?_, ?_, ?_, ?_, ?_, ?_⟩
  · intro hne
    have hpos : 0 < dist3 p t := lt_of_le_of_ne (dist3_nonneg p t) (Ne.symm hne)
    rw [hid]
    nlinarith
  · intro hz
    rw [hid, hz, mul_zero]
  · exact ⟨lerp1_target_sub p.x t.x s, lerp1_target_sub p.y t.y s,
      lerp1_target_sub p.z t.z s⟩
  · exact ⟨(lerp1_between p.x t.x s h0.le h1.le).1,
      (lerp1_between p.x t.x s h0.le h1.le).2,
      (lerp1_between p.y t.y s h0.le h1.le).1,
      (lerp1_between p.y t.y s h0.le h1.le).2,
      (lerp1_between p.z t.z s h0.le h1.le).1,
      (lerp1_between p.z t.z s h0.le h1.le).2⟩
  · intro n hpt hiter
    apply hpt
    obtain ⟨e1, e2, e3⟩ := lerpIter_target_sub p t s n
    rw [hiter] at e1 e2 e3
    have hsn : (1 - s) ^ n ≠ 0 := pow_ne_zero _ (by linarith)
    have f1 : t.x - p.x = 0 := by
      rcases mul_eq_zero.1 ((sub_self t.x).symm.trans e1).symm with h | h
      · exact absurd h hsn
      · exact h
    have f2 : t.y - p.y = 0 := by
      rcases mul_eq_zero.1 ((sub_self t.y).symm.trans e2).symm with h | h
      · exact absurd h hsn
      · exact h
    have f3 : t.z - p.z = 0 := by
      rcases mul_eq_zero.1 ((sub_self t.z).symm.trans e3).symm with h | h
      · exact absurd h hsn
      · exact h
    cases p with
    | mk px py pz =>
        cases t with
        | mk tx ty tz =>
            simp only [Vec3.mk.injEq]
            simp only at f1 f2 f3
            exact ⟨by linarith, by linarith, by linarith⟩
  · intro v hv0 hv1
    unfold lerpSpeed
    constructor <;> nlinarith

/-- Witness for C3: from the origin toward `(1, 0, 0)` at factor `1/2`, the
distance strictly drops, seven iterations still have not reached the target,
and the smallest possible engine factor `0.07` lies in `(0, 1)`. -/
theorem C3_morph_convergence_witness :
    dist3 (lerpStep3 ⟨0, 0, 0⟩ ⟨1, 0, 0⟩ (1 / 2)) ⟨1, 0, 0⟩ <
      dist3 (⟨0, 0, 0⟩ : Vec3 ℝ) ⟨1, 0, 0⟩ ∧
    lerpIter (⟨0, 0, 0⟩ : Vec3 ℝ) ⟨1, 0, 0⟩ (1 / 2) 7 ≠ ⟨1, 0, 0⟩ ∧
    0 < lerpSpeed 0 ∧ lerpSpeed 0 < 1 := by
  have h0 : (0 : ℝ) < 1 / 2 := by norm_num
  have h1 : (1 : ℝ) / 2 < 1 := by norm_num
  have hd : dist3 (⟨0, 0, 0⟩ : Vec3 ℝ) ⟨1, 0, 0⟩ ≠ 0 := by
    unfold dist3
    simp only
    norm_num
  have hne : (⟨0, 0, 0⟩ : Vec3 ℝ) ≠ ⟨1, 0, 0⟩ := by
    simp [Vec3.mk.injEq]
  exact ⟨(C3_morph_convergence ⟨0, 0, 0⟩ ⟨1, 0, 0⟩ (1 / 2) h0 h1).2.1 hd,
    (C3_morph_convergence ⟨0, 0, 0⟩ ⟨1, 0, 0⟩ (1 / 2) h0 h1).2.2.2.2.2.1 7 hne,
    ((C3_morph_convergence ⟨0, 0, 0⟩ ⟨1, 0, 0⟩ (1 / 2) h0 h1).2.2.2.2.2.2 0
      le_rfl (by norm_num)).1,
    ((C3_morph_convergence ⟨0, 0, 0⟩ ⟨1, 0, 0⟩ (1 / 2) h0 h1).2.2.2.2.2.2 0
      le_rfl (by norm_num)).2⟩

/-! ### The per-hand frame update (C6, C9, C10) -/

/-- The parts of a frame that run on every tick, whatever the mode and
activity: shimmer set-on-flip then decay-and-clamp, the material size and
opacity derived from the decayed shimmer, the anchor follow, the constant
rotation, and the previous-fist bookkeeping. -/
theorem frameStep_common (hand otherHand : HandState ℝ) (shapes : List (Array ℝ))
    (isShowingText : Bool) (textShape : Array ℝ) (lerpSpeeds : ℕ → ℝ)
    (time delta : ℝ) (st : RenderState) :
    (frameStep hand otherHand shapes isShowingText textShape lerpSpeeds
        time delta st).shimmer =
      max 0 ((if hand.isFist && !st.prevIsFist then 1.0 else st.shimmer) -
        delta * 2.5) ∧
    (frameStep hand otherHand shapes isShowingText textShape lerpSpeeds
        time delta st).prevIsFist = hand.isFist ∧
    (frameStep hand otherHand shapes isShowingText textShape lerpSpeeds
        time delta st).size =
      0.014 * (1.0 + (frameStep hand otherHand shapes isShowingText textShape
        lerpSpeeds time delta st).shimmer * 1.5) ∧
    (frameStep hand otherHand shapes isShowingText textShape lerpSpeeds
        time delta st).opacity =
      0.85 + (frameStep hand otherHand shapes isShowingText textShape
        lerpSpeeds time delta st).shimmer * 0.15 ∧
    (frameStep hand otherHand shapes isShowingText textShape lerpSpeeds
        time delta st).anchor =
      ⟨st.anchor.x + (hand.position.x - st.anchor.x) * 0.15,
       st.anchor.y + (hand.position.y - st.anchor.y) * 0.15,
       st.anchor.z + (hand.position.z - st.anchor.z) * 0.15⟩ ∧
    (frameStep hand otherHand shapes isShowingText textShape lerpSpeeds
        time delta st).rotY = st.rotY + delta * 0.4 := by
  cases hg : shapes[hand.shapeIndex % shapes.length]? <;>
    cases hA : hand.isActive <;> cases hF : hand.isFist <;>
      cases hT : isShowingText <;>
        simp [frameStep, hA, hF, hT, hg]

/-- On an inactive tick the particle buffer is untouched and the system is
marked invisible. -/
theorem frameStep_inactive (hand otherHand : HandState ℝ) (shapes : List (Array ℝ))
    (isShowingText : Bool) (textShape : Array ℝ) (lerpSpeeds : ℕ → ℝ)
    (time delta : ℝ) (st : RenderState) (hA : hand.isActive = false) :
    (frameStep hand otherHand shapes isShowingText textShape lerpSpeeds
        time delta st).pos = st.pos ∧
    (frameStep hand otherHand shapes isShowingText textShape lerpSpeeds
        time delta st).visible = false := by
  constructor <;> simp [frameStep, hA]

/-- C6: on an ambient-cloud tick (hand active, open, no overlay) the engine
scales the swirl targets by `spreadOf`; when the other hand is active and not
fisted this spread equals `1 + min(0.5 · d, 3)` for `d` the x/y distance
between the hands, hence lies in `[1, 4]`; in every other case it equals 1. -/
theorem C6_spread_clamp (hand otherHand : HandState ℝ) :
    0 ≤ interHandDist hand otherHand ∧
    (otherHand.isActive = true → otherHand.isFist = false →
      spreadOf hand otherHand =
        1.0 + min (interHandDist hand otherHand * 0.5) 3.0 ∧
      1 ≤ spreadOf hand otherHand ∧ spreadOf hand otherHand ≤ 4) ∧
    ((otherHand.isActive = false ∨ otherHand.isFist = true) →
      spreadOf hand otherHand = 1.0) ∧
    (∀ (shapes : List (Array ℝ)) (textShape : Array ℝ) (lerpSpeeds : ℕ → ℝ)
        (time delta : ℝ) (st : RenderState),
      hand.isActive = true → hand.isFist = false →
      (frameStep hand otherHand shapes false textShape lerpSpeeds
          time delta st).pos =
        morphWith (ambientTarget time (spreadOf hand otherHand))
          (fun _ => 0.05) st.pos) := by
  have hd : 0 ≤ interHandDist hand otherHand := Real.sqrt_nonneg _
  refine ⟨hd, ?_, ?_, ?_⟩
  · intro ha hf
    have he : spreadOf hand otherHand =
        1.0 + min (interHandDist hand otherHand * 0.5) 3.0 := by
      simp [spreadOf, ha, hf]
    have hmin0 : 0 ≤ min (interHandDist hand otherHand * 0.5) 3.0 :=
      le_min (by nlinarith) (by norm_num)
    have hmin3 : min (interHandDist hand otherHand * 0.5) 3.0 ≤ 3.0 :=
      min_le_right _ _
    refine ⟨he, ?_, ?_⟩ <;> rw [he] <;> linarith [hmin0, hmin3]
  · intro h
    rcases h with h | h <;> simp [spreadOf, h]
  · intro shapes textShape lerpSpeeds time delta st ha hf
    simp [frameStep, ha, hf]

/-- Witness for C6: hands at `(3, 4, 0)` and the origin; with the other hand
open and active the clamped formula applies, and with the other hand fisted
the spread is 1. -/
theorem C6_spread_clamp_witness :
    spreadOf openHandAt34 openHandAt0 =
      1.0 + min (interHandDist openHandAt34 openHandAt0 * 0.5) 3.0 ∧
    1 ≤ spreadOf openHandAt34 openHandAt0 ∧
    spreadOf openHandAt34 openHandAt0 ≤ 4 ∧
    spreadOf openHandAt34 fistHandAt0 = 1.0 :=
  ⟨((C6_spread_clamp openHandAt34 openHandAt0).2.1 rfl rfl).1,
   ((C6_spread_clamp openHandAt34 openHandAt0).2.1 rfl rfl).2.1,
   ((C6_spread_clamp openHandAt34 openHandAt0).2.1 rfl rfl).2.2,
   (C6_spread_clamp openHandAt34 fistHandAt0).2.2.1 (Or.inr rfl)⟩

/-- C9 (amended): on a tick where the hand is inactive the particle system is
marked invisible and the particle buffer is untouched — but the animation
state is *not* frozen: the anchor still eases 15 % toward the tracked
position, the rotation still advances by `delta * 0.4`, and the shimmer still
decays (the early return sits after those updates in the frame). -/
theorem C9_inactive_freeze (hand otherHand : HandState ℝ)
    (shapes : List (Array ℝ)) (isShowingText : Bool) (textShape : Array ℝ)
    (lerpSpeeds : ℕ → ℝ) (time delta : ℝ) (st : RenderState)
    (hA : hand.isActive = false) :
    (frameStep hand otherHand shapes isShowingText textShape lerpSpeeds
        time delta st).visible = false ∧
    (frameStep hand otherHand shapes isShowingText textShape lerpSpeeds
        time delta st).pos = st.pos ∧
    (frameStep hand otherHand shapes isShowingText textShape lerpSpeeds
        time delta st).anchor =
      ⟨st.anchor.x + (hand.position.x - st.anchor.x) * 0.15,
       st.anchor.y + (hand.position.y - st.anchor.y) * 0.15,
       st.anchor.z + (hand.position.z - st.anchor.z) * 0.15⟩ ∧
    (frameStep hand otherHand shapes isShowingText textShape lerpSpeeds
        time delta st).rotY = st.rotY + delta * 0.4 ∧
    (frameStep hand otherHand shapes isShowingText textShape lerpSpeeds
        time delta st).shimmer =
      max 0 ((if hand.isFist && !st.prevIsFist then 1.0 else st.shimmer) -
        delta * 2.5) := by
  obtain ⟨hsh, _, _, _, hanchor, hrot⟩ :=
    frameStep_common hand otherHand shapes isShowingText textShape lerpSpeeds
      time delta st
  obtain ⟨hpos, hvis⟩ :=
    frameStep_inactive hand otherHand shapes isShowingText textShape lerpSpeeds
      time delta st hA
  exact ⟨hvis, hpos, hanchor, hrot, hsh⟩

/-- Witness for C9: the concrete inactive hand last seen at `(1, 0, 0)`. -/
theorem C9_inactive_freeze_witness :
    (frameStep inactiveHandAt1 openHandAt0 [] false zeroBuffer (fun _ => 0.07)
        0 1 renderState0).visible = false ∧
    (frameStep inactiveHandAt1 openHandAt0 [] false zeroBuffer (fun _ => 0.07)
        0 1 renderState0).pos = renderState0.pos :=
  ⟨(C9_inactive_freeze inactiveHandAt1 openHandAt0 [] false zeroBuffer
      (fun _ => 0.07) 0 1 renderState0 rfl).1,
   (C9_inactive_freeze inactiveHandAt1 openHandAt0 [] false zeroBuffer
      (fun _ => 0.07) 0 1 renderState0 rfl).2.1⟩

/-- C9 counterexample: an inactive tick at `delta = 1` moves the anchor from
0 to 0.15, advances the rotation from 0 to 0.4, and decays the shimmer from 1
to 0 — none of anchor, rotation, or shimmer is "preserved exactly". -/
theorem C9_counterexample :
    (frameStep inactiveHandAt1 openHandAt0 [] false zeroBuffer (fun _ => 0.07)
        0 1 renderState0).anchor.x = 0.15 ∧
    renderState0.anchor.x = 0 ∧ (0.15 : ℝ) ≠ 0 ∧
    (frameStep inactiveHandAt1 openHandAt0 [] false zeroBuffer (fun _ => 0.07)
        0 1 renderState0).rotY = 0.4 ∧
    renderState0.rotY = 0 ∧ (0.4 : ℝ) ≠ 0 ∧
    (frameStep inactiveHandAt1 openHandAt0 [] false zeroBuffer (fun _ => 0.07)
        0 1 renderState0).shimmer = 0 ∧
    renderState0.shimmer = 1 ∧ (0 : ℝ) ≠ 1 := by
  refine ⟨?_, rfl, by norm_num, ?_, rfl, by norm_num, ?_, rfl, by norm_num⟩
  · simp [frameStep, inactiveHandAt1, renderState0]
  · simp [frameStep, inactiveHandAt1, renderState0]
  · simp only [frameStep, inactiveHandAt1, renderState0]
    norm_num

/-- `max 0` clamping absorbs an earlier clamp when the decrement is
nonnegative. -/
theorem max_zero_sub_absorb (a b : ℝ) (hb : 0 ≤ b) :
    max 0 (max 0 a - b) = max 0 (a - b) := by
  rcases le_total a 0 with h | h
  · rw [max_eq_left h, max_eq_left (by linarith), max_eq_left (by linarith)]
  · rw [max_eq_right h]

/-- Over a run of frames with the hand open (no flip), the shimmer after `n`
frames is the initial value minus 2.5 times the elapsed time, clamped at
zero. -/
theorem frameIter_shimmer (hand otherHand : HandState ℝ)
    (shapes : List (Array ℝ)) (isShowingText : Bool) (textShape : Array ℝ)
    (lerpSpeeds : ℕ → ℝ) (times deltas : ℕ → ℝ)
    (hF : hand.isFist = false) (hd : ∀ i, 0 ≤ deltas i) :
    ∀ (n : ℕ) (st : RenderState), 0 ≤ st.shimmer →
      (frameIter hand otherHand shapes isShowingText textShape lerpSpeeds
          times deltas n st).shimmer =
        max 0 (st.shimmer - 2.5 * ∑ i in Finset.range n, deltas i) := by
  intro n
  induction n with
  | zero =>
      intro st hs0
      simp [frameIter, max_eq_right hs0]
  | succ m ih =>
      intro st hs0
      rw [frameIter]
      obtain ⟨hsh, _, _, _, _, _⟩ :=
        frameStep_common hand otherHand shapes isShowingText textShape
          lerpSpeeds (times m) (deltas m)
          (frameIter hand otherHand shapes isShowingText textShape lerpSpeeds
            times deltas m st)
      rw [hsh, hF]
      simp only [Bool.false_and, if_false, Bool.false_eq_true]
      rw [ih st hs0, max_zero_sub_absorb _ _ (by nlinarith [hd m]),
        Finset.sum_range_succ]
      congr 1
      ring

/-- C10: the shimmer transient.  On every frame — active or not — the shimmer
becomes `max 0 (x - delta * 2.5)` where `x` is 1.0 exactly on a false→true
fist flip and the previous shimmer otherwise; it therefore stays in `[0, 1]`
whenever `delta ≥ 0`; the exposed size and opacity are
`0.014 * (1 + shimmer * 1.5) ∈ [0.014, 0.014 * 2.5]` and
`0.85 + shimmer * 0.15 ∈ [0.85, 1]`; and under any positive per-frame lower
bound on `delta` the clamp makes the shimmer reach exactly 0 after finitely
many non-flip frames. -/
theorem C10_shimmer_invariant (hand otherHand : HandState ℝ)
    (shapes : List (Array ℝ)) (isShowingText : Bool) (textShape : Array ℝ)
    (lerpSpeeds : ℕ → ℝ) (time delta : ℝ) (st : RenderState) :
    (frameStep hand otherHand shapes isShowingText textShape lerpSpeeds
        time delta st).shimmer =
      max 0 ((if hand.isFist && !st.prevIsFist then 1.0 else st.shimmer) -
        delta * 2.5) ∧
    (st.prevIsFist = false → hand.isFist = true →
      (frameStep hand otherHand shapes isShowingText textShape lerpSpeeds
          time delta st).shimmer = max 0 (1.0 - delta * 2.5)) ∧
    (hand.isFist = false ∨ st.prevIsFist = true →
      (frameStep hand otherHand shapes isShowingText textShape lerpSpeeds
          time delta st).shimmer = max 0 (st.shimmer - delta * 2.5)) ∧
    (0 ≤ delta → st.shimmer ≤ 1 →
      0 ≤ (frameStep hand otherHand shapes isShowingText textShape lerpSpeeds
          time delta st).shimmer ∧
      (frameStep hand otherHand shapes isShowingText textShape lerpSpeeds
          time delta st).shimmer ≤ 1) ∧
    ((frameStep hand otherHand shapes isShowingText textShape lerpSpeeds
        time delta st).size =
      0.014 * (1.0 + (frameStep hand otherHand shapes isShowingText textShape
        lerpSpeeds time delta st).shimmer * 1.5) ∧
     (frameStep hand otherHand shapes isShowingText textShape lerpSpeeds
        time delta st).opacity =
      0.85 + (frameStep hand otherHand shapes isShowingText textShape
        lerpSpeeds time delta st).shimmer * 0.15) ∧
    (0 ≤ delta → st.shimmer ≤ 1 →
      0.014 ≤ (frameStep hand otherHand shapes isShowingText textShape
          lerpSpeeds time delta st).size ∧
      (frameStep hand otherHand shapes isShowingText textShape lerpSpeeds
          time delta st).size ≤ 0.014 * 2.5 ∧
      0.85 ≤ (frameStep hand otherHand shapes isShowingText textShape
          lerpSpeeds time delta st).opacity ∧
      (frameStep hand otherHand shapes isShowingText textShape lerpSpeeds
          time delta st).opacity ≤ 1.0) ∧
    (∀ (times deltas : ℕ → ℝ) (n : ℕ) (ε : ℝ),
      hand.isFist = false → 0 < ε → (∀ i, ε ≤ deltas i) →
      0 ≤ st.shimmer → st.shimmer ≤ (n : ℝ) * (2.5 * ε) →
      (frameIter hand otherHand shapes isShowingText textShape lerpSpeeds
          times deltas n st).shimmer = 0) := by
  obtain ⟨hsh, _, hsize, hop, _, _⟩ :=
    frameStep_common hand otherHand shapes isShowingText textShape lerpSpeeds
      time delta st
  have hrange : 0 ≤ delta → st.shimmer ≤ 1 →
      0 ≤ (frameStep hand otherHand shapes isShowingText textShape lerpSpeeds
        time delta st).shimmer ∧
      (frameStep hand otherHand shapes isShowingText textShape lerpSpeeds
        time delta st).shimmer ≤ 1 := by
    intro hdel hs1
    rw [hsh]
    refine ⟨le_max_left _ _, max_le (by norm_num) ?_⟩
    split <;> nlinarith
  refine ⟨hsh, ?_, ?_, hrange, ⟨hsize, hop⟩, ?_, ?_⟩
  · intro hp hf
    rw [hsh, hf, hp]
    norm_num
  · intro h
    rw [hsh]
    rcases h with h | h <;> rw [h] <;> simp
  · intro hdel hs1
    obtain ⟨hlo, hhi⟩ := hrange hdel hs1
    rw [hsize, hop]
    refine ⟨by nlinarith, by nlinarith, by nlinarith, by nlinarith⟩
  · intro times deltas n ε hF hε hd hs0 hsn
    rw [frameIter_shimmer hand otherHand shapes isShowingText textShape
      lerpSpeeds times deltas hF (fun i => le_trans hε.le (hd i)) n st hs0]
    have hsum : (n : ℝ) * ε ≤ ∑ i in Finset.range n, deltas i := by
      have h := Finset.card_nsmul_le_sum (Finset.range n) deltas ε
        (fun i _ => hd i)
      simpa [nsmul_eq_mul] using h
    rw [max_eq_left]
    nlinarith

/-- Witness for C10: with the concrete inactive open hand and the fully
charged shimmer at `delta = 1`, the invariant holds, and two frames of 0.2 s
each drive the shimmer to exactly 0; a fist flip from the concrete fisted
hand reloads the shimmer. -/
theorem C10_shimmer_invariant_witness :
    (0 ≤ (frameStep inactiveHandAt1 openHandAt0 [] false zeroBuffer
        (fun _ => 0.07) 0 1 renderState0).shimmer ∧
      (frameStep inactiveHandAt1 openHandAt0 [] false zeroBuffer
        (fun _ => 0.07) 0 1 renderState0).shimmer ≤ 1) ∧
    (frameStep fistHandAt0 openHandAt0 [] false zeroBuffer (fun _ => 0.07)
        0 1 renderState0).shimmer = max 0 (1.0 - 1 * 2.5) ∧
    (frameIter inactiveHandAt1 openHandAt0 [] false zeroBuffer (fun _ => 0.07)
        (fun _ => 0) (fun _ => 0.2) 2 renderState0).shimmer = 0 :=
  ⟨(C10_shimmer_invariant inactiveHandAt1 openHandAt0 [] false zeroBuffer
      (fun _ => 0.07) 0 1 renderState0).2.2.2.1 (by norm_num)
      (by norm_num [renderState0]),
   (C10_shimmer_invariant fistHandAt0 openHandAt0 [] false zeroBuffer
      (fun _ => 0.07) 0 1 renderState0).2.1 rfl rfl,
   (C10_shimmer_invariant inactiveHandAt1 openHandAt0 [] false zeroBuffer
      (fun _ => 0.07) 0 0.2 renderState0).2.2.2.2.2.2 (fun _ => 0)
      (fun _ => 0.2) 2 0.2 rfl (by norm_num) (fun _ => le_rfl)
      (by norm_num [renderState0]) (by norm_num [renderState0])⟩

end Hologram
